import Mathlib

/-!
# UERANSIM gNB front end (`src/gnb.cpp`)

A shallow embedding of `ReadConfigYaml`, `ReceiveCommand`, `Loop` and the node
registration of `main` in `src/gnb.cpp`, together with the theorems that relate
them to the natural-language specification.

Modelling conventions

* A `std::string` is a finite sequence of octets (`CppString`); `size()` is
  `List.length`, `empty()` is `List.isEmpty`, `operator+` is `++`.
* The process-wide globals become an explicit state value (`Globals`).
* The tokenizer `opt::PerformExpansion` and the parser
  `app::ParseGnbCliCommand` live outside `src/gnb.cpp`; they are taken as
  arbitrary functions (`Collaborators`).  Every call into them is appended to
  `Globals.calls`, so that "is not consulted" is an observable statement.
* `Loop` returns `none` when the C++ call blocks (no channel: `::pause()`;
  channel without a pending datagram: `receiveMessage()`).
* `ReadConfigYaml` takes the parsed document (`YamlNode`) and returns
  `Except.error` when one of the helpers of `utils/yaml_utils.hpp` throws.
  Those helpers are modelled from the spec; the scalar conversions of yaml-cpp,
  `utils::GetIpVersion` and `GnbConfig::getGnbId()` are arbitrary functions
  (`ConfigEnv`).
* `g_gnbMap` is an association list with at most one entry per key.
-/

namespace Gnb

/-! ## Strings -/

/-- One octet of a `std::string`. -/
abbrev Byte := Fin 256

/-- A `std::string`: a finite sequence of octets. -/
abbrev CppString := List Byte

/-- A narrow string literal of the source.  All literals of `src/gnb.cpp` are
7-bit ASCII, so each character is the octet with its code point. -/
def lit (s : String) : CppString :=
  s.toList.map (fun c => Fin.ofNat c.toNat)

/-! ## Types declared outside `src/gnb.cpp` -/

/-- Modelled from the spec: `app::CliMessage::Type` is declared in
`app/cli_base.hpp`, which is absent; the spec gives the message kinds as
`ECHO, COMMAND, RESULT, ERROR`. -/
inductive CliMessageType where
  | ECHO
  | COMMAND
  | RESULT
  | ERROR
  deriving DecidableEq, Repr

/-- Modelled from the spec: `InetAddress` is declared in `utils/network.hpp`,
which is absent; only equality of addresses matters here. -/
structure InetAddress where
  host : Nat
  port : Nat
  deriving DecidableEq, Repr

/-- Modelled from the spec: `app::CliMessage` is declared in
`app/cli_base.hpp`, which is absent; the spec gives its fields as
`kind, clientAddress, targetNodeName, value`.  The field names are the ones
`src/gnb.cpp` uses (`type`, `clientAddr`, `nodeName`, `value`). -/
structure CliMessage where
  type : CliMessageType
  clientAddr : InetAddress
  nodeName : CppString
  value : CppString
  deriving DecidableEq, Repr

/-- Modelled from the spec: the factory `app::CliMessage::Result(addr, msg)` is
absent; it builds a `RESULT` addressed to `addr` that carries `msg` and names
no node. -/
def CliMessage.Result (addr : InetAddress) (msg : CppString) : CliMessage :=
  { type := CliMessageType.RESULT, clientAddr := addr, nodeName := [], value := msg }

/-- Modelled from the spec: the factory `app::CliMessage::Error(addr, msg)` is
absent; it builds an `ERROR` addressed to `addr` that carries `msg` and names
no node. -/
def CliMessage.Error (addr : InetAddress) (msg : CppString) : CliMessage :=
  { type := CliMessageType.ERROR, clientAddr := addr, nodeName := [], value := msg }

/-- Modelled from the spec: `app::CliServer` is absent.  `receiveMessage()`
hands out the datagrams in arrival order, one at a time; `sendMessage(m)`
delivers `m`.  `inbound` holds the datagrams not yet received, `outbound`
every message passed to `sendMessage`, oldest first. -/
structure CliServer where
  inbound : List CliMessage
  outbound : List CliMessage
  deriving DecidableEq, Repr

/-- Modelled from the spec: `CliServer::receiveMessage()`; `none` when no
datagram is pending (the C++ call blocks). -/
def CliServer.receiveMessage (s : CliServer) : Option (CliMessage × CliServer) :=
  match s.inbound with
  | [] => none
  | m :: rest => some (m, { s with inbound := rest })

/-- Modelled from the spec: `CliServer::sendMessage(msg)`. -/
def CliServer.sendMessage (s : CliServer) (msg : CliMessage) : CliServer :=
  { s with outbound := s.outbound ++ [msg] }

/-- Modelled from the spec: `opt::ExpansionResult` is declared in
`utils/options.hpp`, which is absent; the source names only `SUCCESS`, every
other enumerator is `OTHER code`. -/
inductive ExpansionResult where
  | SUCCESS
  | OTHER (code : Nat)
  deriving DecidableEq, Repr

/-- Modelled from the spec: `app::GnbCliCommand` is declared in
`app/cli_cmd.hpp`, which is absent; the loop never looks inside it. -/
structure GnbCliCommand where
  present : Nat
  deriving DecidableEq, Repr

/-- What one call `ParseGnbCliCommand(tokens, error, output)` leaves behind: the
returned pointer (`none` is `nullptr`) and the two out-parameters. -/
structure ParseOutcome where
  cmd : Option GnbCliCommand
  error : CppString
  output : CppString
  deriving DecidableEq, Repr

/-- Modelled from the spec: the contract of the absent parser's result, "exactly
one of { structuredCommand, errorText, immediateOutput } ... never more than
one populated": a command object comes with an empty error text and an empty
output, and a non-empty error text with an empty output. -/
def ParseOutcome.atMostOnePopulated (r : ParseOutcome) : Prop :=
  (r.cmd ≠ none → r.error = [] ∧ r.output = []) ∧ (r.error ≠ [] → r.output = [])

instance (r : ParseOutcome) : Decidable r.atMostOnePopulated :=
  inferInstanceAs (Decidable
    ((r.cmd ≠ none → r.error = [] ∧ r.output = []) ∧ (r.error ≠ [] → r.output = [])))

/-- The two functions `ReceiveCommand` calls that are defined outside
`src/gnb.cpp`.  `PerformExpansion value` gives the returned code and the
content of `tokens` after the call. -/
structure Collaborators where
  PerformExpansion : CppString → ExpansionResult × List CppString
  ParseGnbCliCommand : List CppString → ParseOutcome

/-- A call into one of the collaborators, with its argument. -/
inductive Call where
  | PerformExpansion (command : CppString)
  | ParseGnbCliCommand (tokens : List CppString)
  deriving DecidableEq, Repr

/-- The globals `Loop` reads and writes: `g_cliServer` (`none` is `nullptr`) and
the log of collaborator calls made so far, oldest first. -/
structure Globals where
  g_cliServer : Option CliServer
  calls : List Call
  deriving DecidableEq, Repr

/-! ## `ReceiveCommand` and `Loop` -/

/-- The function `ReceiveCommand(msg)` of `src/gnb.cpp`, lines 99-142.  `srv` is the object
`g_cliServer` points to (the caller has checked it is not null). -/
def ReceiveCommand (ext : Collaborators) (msg : CliMessage) (srv : CliServer)
    (calls : List Call) : CliServer × List Call :=
  if msg.value.isEmpty then
    (srv.sendMessage (CliMessage.Result msg.clientAddr (lit "")), calls)
  else
    let exp := ext.PerformExpansion msg.value
    let tokens := exp.2
    let calls1 := calls ++ [Call.PerformExpansion msg.value]
    if exp.1 ≠ ExpansionResult.SUCCESS then
      (srv.sendMessage
        (CliMessage.Error msg.clientAddr (lit "Invalid command: " ++ msg.value)), calls1)
    else if tokens.isEmpty then
      (srv.sendMessage (CliMessage.Error msg.clientAddr (lit "Empty command")), calls1)
    else
      let r := ext.ParseGnbCliCommand tokens
      let calls2 := calls1 ++ [Call.ParseGnbCliCommand tokens]
      if ¬ r.error.isEmpty then
        (srv.sendMessage (CliMessage.Error msg.clientAddr r.error), calls2)
      else if ¬ r.output.isEmpty then
        (srv.sendMessage (CliMessage.Result msg.clientAddr r.output), calls2)
      else if r.cmd = none then
        (srv.sendMessage (CliMessage.Error msg.clientAddr (lit "")), calls2)
      else
        (srv.sendMessage (CliMessage.Error msg.clientAddr (lit "Not implemented yet")), calls2)

/-- The function `Loop()` of `src/gnb.cpp`, lines 144-175: one iteration of the command
loop.  `none`: the call blocks. -/
def Loop (ext : Collaborators) (g : Globals) : Option Globals :=
  match g.g_cliServer with
  | none => none
  | some srv0 =>
    match srv0.receiveMessage with
    | none => none
    | some (msg, srv) =>
      if msg.type = CliMessageType.ECHO then
        some { g with g_cliServer := some (srv.sendMessage msg) }
      else if msg.type ≠ CliMessageType.COMMAND then
        some { g with g_cliServer := some srv }
      else if msg.value.length > 0xFFFF then
        some { g with g_cliServer := some (srv.sendMessage
          (CliMessage.Error msg.clientAddr (lit "Command is too large"))) }
      else if msg.nodeName.length > 0xFFFF then
        some { g with g_cliServer := some (srv.sendMessage
          (CliMessage.Error msg.clientAddr (lit "Node name is too large"))) }
      else
        let r := ReceiveCommand ext msg srv g.calls
        some { g_cliServer := some r.1, calls := r.2 }

/-- The state in which the channel exists, `msg` is the next datagram, `rest`
the datagrams behind it, `sent` the messages sent so far and `calls` the
collaborator calls made so far. -/
def channelState (msg : CliMessage) (rest sent : List CliMessage) (calls : List Call) :
    Globals :=
  { g_cliServer := some { inbound := msg :: rest, outbound := sent }, calls := calls }

/-- The state `Loop` leaves when it has consumed one datagram, sent `replies`
and made the collaborator calls `made`. -/
def afterIteration (rest sent replies : List CliMessage) (calls made : List Call) :
    Globals :=
  { g_cliServer := some { inbound := rest, outbound := sent ++ replies },
    calls := calls ++ made }

/-! ## Configuration: types and helpers declared outside `src/gnb.cpp` -/

/-- Modelled from the spec: a node of the parsed configuration document (the
`YAML::Node` that `YAML::LoadFile` returns; yaml-cpp is absent).  The spec
calls it a structured key-value document: a scalar keeps its text, a sequence
its items in document order, a mapping its keys and values. -/
inductive YamlNode where
  | Null
  | Scalar (text : CppString)
  | Sequence (items : List YamlNode)
  | Map (entries : List (CppString × YamlNode))

/-- Modelled from the spec: `node[field]`; `none` when `node` is not a mapping
or has no such key (the resulting node is not defined). -/
def YamlNode.get (node : YamlNode) (field : CppString) : Option YamlNode :=
  match node with
  | YamlNode.Map entries => entries.lookup field
  | _ => none

/-- Modelled from the spec: why a field is refused.  The spec's `ConfigError`
names the offending field and the violated range. -/
inductive Violation where
  | missing
  | notInteger
  | lessThan (minValue : Int)
  | greaterThan (maxValue : Int)
  | tooShort (minLength : Nat)
  | tooLong (maxLength : Nat)
  | notIp4
  | notBool
  | notSequence
  deriving DecidableEq, Repr

/-- Modelled from the spec: the error the helpers of `utils/yaml_utils.hpp`
raise (`ConfigError` in the spec): the key of the offending field and what is
wrong with it. -/
structure FieldError where
  name : CppString
  why : Violation
  deriving DecidableEq, Repr

/-- Modelled from the spec: `Plmn` (`utils/common_types.hpp`, absent), as far
as `ReadConfigYaml` fills it in. -/
structure Plmn where
  mcc : Int
  mnc : Int
  isLongMnc : Bool
  deriving DecidableEq, Repr

/-- Modelled from the spec: `nr::gnb::GnbAmfConfig` (absent): an address and a
`uint16_t` port. -/
structure GnbAmfConfig where
  address : CppString
  port : Nat
  deriving DecidableEq, Repr

/-- Modelled from the spec: `SliceSupport` (absent): an `sst` and an optional
24-bit `sd` (`std::optional<octet3>`, `none` when not set). -/
structure SliceSupport where
  sst : Int
  sd : Option Nat
  deriving DecidableEq, Repr

/-- Modelled from the spec: `EPagingDrx` (absent); the source names `V128`. -/
inductive EPagingDrx where
  | V32
  | V64
  | V128
  | V256
  deriving DecidableEq, Repr

/-- Modelled from the spec: `nr::gnb::GnbConfig` (`gnb/types.hpp`, absent), with
the fields `ReadConfigYaml` assigns.  A value-initialised object has zero
numbers, empty strings and empty vectors. -/
structure GnbConfig where
  plmn : Plmn
  nci : Int
  gnbIdLength : Int
  tac : Int
  portalIp : CppString
  ngapIp : CppString
  gtpIp : CppString
  ignoreStreamIds : Bool
  pagingDrx : EPagingDrx
  name : CppString
  amfConfigs : List GnbAmfConfig
  nssais : List SliceSupport
  deriving DecidableEq, Repr

/-- What `ReadConfigYaml` uses and neither `src/gnb.cpp` nor the spec defines:
the scalar conversions of yaml-cpp (`as<int>`, `as<int64_t>` as one conversion
to a mathematical integer, and `as<bool>`), `utils::GetIpVersion`, and the
method `GnbConfig::getGnbId()`. -/
structure ConfigEnv where
  asInteger : CppString → Option Int
  asBool : CppString → Option Bool
  GetIpVersion : CppString → Int
  getGnbId : GnbConfig → Nat

namespace yaml

/-- Modelled from the spec: `yaml::HasField(node, field)`. -/
def HasField (node : YamlNode) (field : CppString) : Bool :=
  (node.get field).isSome

/-- Modelled from the spec: the integer readers fail, naming the key, when the
key is missing, when its value is not an integer of the given width, or when
the integer is below `minValue` or above `maxValue`. -/
def GetInteger (env : ConfigEnv) (width : Nat) (node : YamlNode) (name : CppString)
    (minValue maxValue : Int) : Except FieldError Int :=
  match node.get name with
  | none => Except.error { name := name, why := Violation.missing }
  | some (YamlNode.Scalar text) =>
    match env.asInteger text with
    | none => Except.error { name := name, why := Violation.notInteger }
    | some value =>
      if value < -(2 ^ (width - 1)) ∨ 2 ^ (width - 1) ≤ value then
        Except.error { name := name, why := Violation.notInteger }
      else if value < minValue then
        Except.error { name := name, why := Violation.lessThan minValue }
      else if value > maxValue then
        Except.error { name := name, why := Violation.greaterThan maxValue }
      else Except.ok value
  | some _ => Except.error { name := name, why := Violation.notInteger }

/-- Modelled from the spec: `yaml::GetInt32(node, name, minValue, maxValue)`. -/
def GetInt32 (env : ConfigEnv) (node : YamlNode) (name : CppString)
    (minValue maxValue : Int) : Except FieldError Int :=
  GetInteger env 32 node name minValue maxValue

/-- Modelled from the spec: `yaml::GetInt64(node, name, minValue, maxValue)`. -/
def GetInt64 (env : ConfigEnv) (node : YamlNode) (name : CppString)
    (minValue maxValue : Int) : Except FieldError Int :=
  GetInteger env 64 node name minValue maxValue

/-- Modelled from the spec: `yaml::GetString(node, name, minLength, maxLength)`:
the text of the scalar, refused when shorter than `minLength` or longer than
`maxLength`. -/
def GetString (node : YamlNode) (name : CppString) (minLength maxLength : Nat) :
    Except FieldError CppString :=
  match node.get name with
  | some (YamlNode.Scalar text) =>
    if text.length < minLength then
      Except.error { name := name, why := Violation.tooShort minLength }
    else if text.length > maxLength then
      Except.error { name := name, why := Violation.tooLong maxLength }
    else Except.ok text
  | _ => Except.error { name := name, why := Violation.missing }

/-- Modelled from the spec: `yaml::GetIp4(node, name)`: the text of the scalar,
refused unless it is an IPv4 address. -/
def GetIp4 (env : ConfigEnv) (node : YamlNode) (name : CppString) :
    Except FieldError CppString :=
  match node.get name with
  | some (YamlNode.Scalar text) =>
    if env.GetIpVersion text = 4 then Except.ok text
    else Except.error { name := name, why := Violation.notIp4 }
  | _ => Except.error { name := name, why := Violation.missing }

/-- Modelled from the spec: `yaml::GetBool(node, name)`. -/
def GetBool (env : ConfigEnv) (node : YamlNode) (name : CppString) :
    Except FieldError Bool :=
  match node.get name with
  | none => Except.error { name := name, why := Violation.missing }
  | some (YamlNode.Scalar text) =>
    match env.asBool text with
    | some b => Except.ok b
    | none => Except.error { name := name, why := Violation.notBool }
  | some _ => Except.error { name := name, why := Violation.notBool }

/-- Modelled from the spec: `yaml::GetSequence(node, name)`: the items of the
sequence under `name`, in document order. -/
def GetSequence (node : YamlNode) (name : CppString) : Except FieldError (List YamlNode) :=
  match node.get name with
  | none => Except.error { name := name, why := Violation.missing }
  | some (YamlNode.Sequence items) => Except.ok items
  | some _ => Except.error { name := name, why := Violation.notSequence }

end yaml

/-! ## `ReadConfigYaml` -/

/-- The decimal digits of `n`, least significant first; `fuel` bounds the
number of digits. -/
def decimalDigits : Nat → Nat → List Nat
  | 0, _ => []
  | fuel + 1, n => if n < 10 then [n] else (n % 10) :: decimalDigits fuel (n / 10)

/-- The octet of the decimal digit `d`. -/
def digitByte (d : Nat) : Byte := Fin.ofNat (48 + d)

/-- The function `std::to_string` on a non-negative integer: its decimal digits,
most significant first, without padding. -/
def decimal (n : Nat) : CppString :=
  (decimalDigits (n + 1) n).reverse.map digitByte

/-- The function `std::to_string(int)`: a minus sign (octet 45) for a negative
value, then the decimal digits of the magnitude. -/
def to_string (v : Int) : CppString :=
  if v < 0 then 45 :: decimal v.natAbs else decimal v.natAbs

/-- The expression of lines 54-55 of `src/gnb.cpp` that is assigned to
`result->name`. -/
def gnbName (mcc mnc : Int) (gnbId : Nat) : CppString :=
  lit "UERANSIM-gnb-" ++ to_string mcc ++ lit "-" ++ to_string mnc ++ lit "-"
    ++ to_string (gnbId : Int)

/-- The body of the loop over `amfConfigs`, lines 59-61 of `src/gnb.cpp`. -/
def readAmfConfig (env : ConfigEnv) (amfConfig : YamlNode) : Except FieldError GnbAmfConfig := do
  let address ← yaml.GetIp4 env amfConfig (lit "address")
  let port ← yaml.GetInt32 env amfConfig (lit "port") 1024 65535
  pure { address := address, port := (port % 65536).toNat }

/-- The body of the loop over `slices`, lines 67-70 of `src/gnb.cpp`; the
narrowing to `octet3` keeps the low 24 bits. -/
def readSlice (env : ConfigEnv) (nssai : YamlNode) : Except FieldError SliceSupport := do
  let sst ← yaml.GetInt32 env nssai (lit "sst") 1 0xFF
  if yaml.HasField nssai (lit "sd") then
    let sd ← yaml.GetInt32 env nssai (lit "sd") 1 0xFFFFFF
    pure { sst := sst, sd := some (sd % 16777216).toNat }
  else
    pure { sst := sst, sd := none }

/-- A range-based `for` loop that reads every item in document order, stops at
the first item that is refused, and otherwise appends each result with
`push_back`. -/
def readEach {α : Type} (body : YamlNode → Except FieldError α) :
    List YamlNode → Except FieldError (List α)
  | [] => Except.ok []
  | item :: items =>
    match body item with
    | Except.error e => Except.error e
    | Except.ok a =>
      match readEach body items with
      | Except.error e => Except.error e
      | Except.ok rest => Except.ok (a :: rest)

/-- The function `ReadConfigYaml()` of `src/gnb.cpp`, lines 34-75, applied to the
node `config` that `YAML::LoadFile` returned.  `Except.error`: one of the
helpers threw, and no configuration is returned. -/
def ReadConfigYaml (env : ConfigEnv) (config : YamlNode) : Except FieldError GnbConfig := do
  let mcc ← yaml.GetInt32 env config (lit "mcc") 1 999
  let _ ← yaml.GetString config (lit "mcc") 3 3
  let mnc ← yaml.GetInt32 env config (lit "mnc") 0 999
  let mncText ← yaml.GetString config (lit "mnc") 2 3
  let isLongMnc := decide (mncText.length = 3)
  let nci ← yaml.GetInt64 env config (lit "nci") 0 0xFFFFFFFFF
  let gnbIdLength ← yaml.GetInt32 env config (lit "idLength") 22 32
  let tac ← yaml.GetInt32 env config (lit "tac") 0 0xFFFFFF
  let portalIp ← yaml.GetIp4 env config (lit "linkIp")
  let ngapIp ← yaml.GetIp4 env config (lit "ngapIp")
  let gtpIp ← yaml.GetIp4 env config (lit "gtpIp")
  let ignoreStreamIds ← yaml.GetBool env config (lit "ignoreStreamIds")
  let draft : GnbConfig :=
    { plmn := { mcc := mcc, mnc := mnc, isLongMnc := isLongMnc }, nci := nci,
      gnbIdLength := gnbIdLength, tac := tac, portalIp := portalIp, ngapIp := ngapIp,
      gtpIp := gtpIp, ignoreStreamIds := ignoreStreamIds, pagingDrx := EPagingDrx.V128,
      name := [], amfConfigs := [], nssais := [] }
  let name := gnbName mcc mnc (env.getGnbId draft)
  let amfItems ← yaml.GetSequence config (lit "amfConfigs")
  let amfConfigs ← readEach (readAmfConfig env) amfItems
  let sliceItems ← yaml.GetSequence config (lit "slices")
  let nssais ← readEach (readSlice env) sliceItems
  pure { draft with name := name, amfConfigs := amfConfigs, nssais := nssais }

/-! ## The node map of `main` -/

/-- A `nr::gnb::GNodeB *`: the identity of a started node. -/
abbrev GNodeB := Nat

/-- The type `std::unordered_map<std::string, nr::gnb::GNodeB *>` of `g_gnbMap`:
at most one entry per key. -/
abbrev GnbMap := List (CppString × GNodeB)

/-- The lookup `map.find(name)`: the node stored under `name`, if any. -/
def GnbMap.find (m : GnbMap) (name : CppString) : Option GNodeB :=
  m.lookup name

/-- The statement `map[name] = gnb`: `operator[]` yields the entry of `name`,
created when there is none, and the assignment stores `gnb` in it. -/
def GnbMap.assign : GnbMap → CppString → GNodeB → GnbMap
  | [], name, gnb => [(name, gnb)]
  | (k, v) :: rest, name, gnb =>
    if k = name then (k, gnb) :: rest else (k, v) :: GnbMap.assign rest name gnb

/-- Line 185 of `src/gnb.cpp`, in `main`: `g_gnbMap[g_refConfig->name] = gnb`. -/
def registerNode (g_gnbMap : GnbMap) (g_refConfig : GnbConfig) (gnb : GNodeB) : GnbMap :=
  g_gnbMap.assign g_refConfig.name gnb

/-! ## Sample inputs -/

/-- A tokenizer that splits nothing and a parser that resolves every token
sequence to a structured command. -/
def resolvingExt : Collaborators :=
  { PerformExpansion := fun v => (ExpansionResult.SUCCESS, [v]),
    ParseGnbCliCommand := fun _ => { cmd := some { present := 0 }, error := [], output := [] } }

/-- Two client addresses. -/
def addrA : InetAddress := { host := 2130706433, port := 40001 }

/-- The second client address. -/
def addrB : InetAddress := { host := 2130706433, port := 40002 }

/-- A `COMMAND` from `addr` for node `node` with text `v`. -/
def commandFrom (addr : InetAddress) (node v : CppString) : CliMessage :=
  { type := CliMessageType.COMMAND, clientAddr := addr, nodeName := node, value := v }

/-- A string of 65536 octets, one more than `0xFFFF`. -/
def oversized : CppString := List.replicate 65536 0

/-- A tokenizer that rejects every input. -/
def rejectingExt : Collaborators :=
  { PerformExpansion := fun _ => (ExpansionResult.OTHER 1, []),
    ParseGnbCliCommand := fun _ => { cmd := none, error := [], output := [] } }

/-- A tokenizer that accepts every input and finds no token in it. -/
def blankExt : Collaborators :=
  { PerformExpansion := fun _ => (ExpansionResult.SUCCESS, []),
    ParseGnbCliCommand := fun _ => { cmd := none, error := [], output := [] } }

/-- A parser that reports an error text and nothing else. -/
def errorExt : Collaborators :=
  { PerformExpansion := fun v => (ExpansionResult.SUCCESS, [v]),
    ParseGnbCliCommand := fun _ => { cmd := none, error := lit "boom", output := [] } }

/-- A parser that produces an immediate output and nothing else. -/
def outputExt : Collaborators :=
  { PerformExpansion := fun v => (ExpansionResult.SUCCESS, [v]),
    ParseGnbCliCommand := fun _ => { cmd := none, error := [], output := lit "usage" } }

/-- A string of 65535 octets, exactly `0xFFFF`. -/
def maximal : CppString := List.replicate 65535 0

/-- An `ECHO` from `addrA` whose value has 65536 octets. -/
def oversizedEcho : CliMessage :=
  { type := CliMessageType.ECHO, clientAddr := addrA, nodeName := lit "gnb1",
    value := oversized }

/-- A parser that returns no command object and leaves both texts empty. -/
def silentExt : Collaborators :=
  { PerformExpansion := fun v => (ExpansionResult.SUCCESS, [v]),
    ParseGnbCliCommand := fun _ => { cmd := none, error := [], output := [] } }

/-- Whether an octet is one of the decimal digits `0` to `9`. -/
def isDigitByte (b : Byte) : Bool := 48 ≤ b.val && b.val ≤ 57

/-- The number written by a non-empty string of decimal digits. -/
def parseDigits (bs : CppString) : Option Nat :=
  if bs ≠ [] ∧ bs.all isDigitByte = true then
    some (bs.foldl (fun acc b => 10 * acc + (b.val - 48)) 0)
  else none

/-- A sample integer conversion: decimal digits, with an optional minus sign. -/
def decimalInteger (bs : CppString) : Option Int :=
  match bs with
  | [] => none
  | b :: rest =>
    if b = 45 then (parseDigits rest).map (fun n => -(n : Int))
    else (parseDigits bs).map (fun n => (n : Int))

/-- A sample environment: decimal integers, `true` and `false`, an address
test that counts three dots, and the identifier that keeps the top
`gnbIdLength` bits of the 36-bit `nci`. -/
def sampleEnv : ConfigEnv :=
  { asInteger := decimalInteger,
    asBool := fun t =>
      if t = lit "true" then some true else if t = lit "false" then some false else none,
    GetIpVersion := fun t => if t.count 46 = 3 then 4 else 0,
    getGnbId := fun c => (c.nci / 2 ^ (36 - c.gnbIdLength).toNat).toNat }

/-- An entry of `amfConfigs`. -/
def amfEntry (address port : String) : YamlNode :=
  YamlNode.Map [(lit "address", YamlNode.Scalar (lit address)),
    (lit "port", YamlNode.Scalar (lit port))]

/-- An entry of `slices` with an `sd`. -/
def sliceEntry (sst sd : String) : YamlNode :=
  YamlNode.Map [(lit "sst", YamlNode.Scalar (lit sst)), (lit "sd", YamlNode.Scalar (lit sd))]

/-- An entry of `slices` without the key `sd`. -/
def sliceEntryNoSd (sst : String) : YamlNode :=
  YamlNode.Map [(lit "sst", YamlNode.Scalar (lit sst))]

/-- A configuration document with the given texts for `mcc`, `mnc`, `nci`,
`idLength` and `tac`, and the given `amfConfigs` and `slices`. -/
def configDocument (mcc mnc nci idLength tac : String) (amfConfigs slices : List YamlNode) :
    YamlNode :=
  YamlNode.Map
    [(lit "mcc", YamlNode.Scalar (lit mcc)),
     (lit "mnc", YamlNode.Scalar (lit mnc)),
     (lit "nci", YamlNode.Scalar (lit nci)),
     (lit "idLength", YamlNode.Scalar (lit idLength)),
     (lit "tac", YamlNode.Scalar (lit tac)),
     (lit "linkIp", YamlNode.Scalar (lit "127.0.0.1")),
     (lit "ngapIp", YamlNode.Scalar (lit "127.0.0.1")),
     (lit "gtpIp", YamlNode.Scalar (lit "127.0.0.1")),
     (lit "ignoreStreamIds", YamlNode.Scalar (lit "true")),
     (lit "amfConfigs", YamlNode.Sequence amfConfigs),
     (lit "slices", YamlNode.Sequence slices)]

/-- A valid document: `mcc: 208`, `mnc: 93`, one AMF, a slice with an `sd` and
a slice without. -/
def sampleDocument : YamlNode :=
  configDocument "208" "93" "16" "32" "1" [amfEntry "127.0.0.5" "38412"]
    [sliceEntry "1" "66051", sliceEntryNoSd "2"]

/-- The configuration `ReadConfigYaml` returns for a document built by
`configDocument` in `sampleEnv`, given the values read. -/
def sampleConfig (mcc mnc : Int) (isLongMnc : Bool) (name : CppString)
    (amfConfigs : List GnbAmfConfig) (nssais : List SliceSupport) : GnbConfig :=
  { plmn := { mcc := mcc, mnc := mnc, isLongMnc := isLongMnc }, nci := 16,
    gnbIdLength := 32, tac := 1, portalIp := lit "127.0.0.1", ngapIp := lit "127.0.0.1",
    gtpIp := lit "127.0.0.1", ignoreStreamIds := true, pagingDrx := EPagingDrx.V128,
    name := name, amfConfigs := amfConfigs, nssais := nssais }

/-! ## Auxiliary facts -/

theorem oversized_length : oversized.length = 65536 :=
  List.length_replicate 65536 (0 : Byte)

theorem lit_empty : lit "" = [] := rfl

theorem sendMessage_eq (inb out : List CliMessage) (m : CliMessage) :
    CliServer.sendMessage { inbound := inb, outbound := out } m
      = { inbound := inb, outbound := out ++ [m] } := rfl

/-- Every path through `ReceiveCommand` sends exactly one message; it is a
`RESULT` or an `ERROR` for the client of `msg`. -/
theorem ReceiveCommand_one_reply (ext : Collaborators) (msg : CliMessage) (srv : CliServer)
    (calls : List Call) :
    ∃ reply made, ReceiveCommand ext msg srv calls = (srv.sendMessage reply, calls ++ made)
      ∧ (reply.type = CliMessageType.RESULT ∨ reply.type = CliMessageType.ERROR)
      ∧ reply.clientAddr = msg.clientAddr := by
  simp only [ReceiveCommand]
  split_ifs
  · exact ⟨CliMessage.Result msg.clientAddr (lit ""), [], by simp, Or.inl rfl, rfl⟩
  · exact ⟨CliMessage.Error msg.clientAddr (lit "Invalid command: " ++ msg.value),
      [Call.PerformExpansion msg.value], rfl, Or.inr rfl, rfl⟩
  · exact ⟨CliMessage.Error msg.clientAddr (lit "Empty command"),
      [Call.PerformExpansion msg.value], rfl, Or.inr rfl, rfl⟩
  · exact ⟨CliMessage.Error msg.clientAddr (lit ""), [Call.PerformExpansion msg.value,
      Call.ParseGnbCliCommand (ext.PerformExpansion msg.value).2], by simp, Or.inr rfl, rfl⟩
  · exact ⟨CliMessage.Error msg.clientAddr (lit "Not implemented yet"),
      [Call.PerformExpansion msg.value,
        Call.ParseGnbCliCommand (ext.PerformExpansion msg.value).2], by simp, Or.inr rfl, rfl⟩
  · exact ⟨CliMessage.Result msg.clientAddr
        (ext.ParseGnbCliCommand (ext.PerformExpansion msg.value).2).output,
      [Call.PerformExpansion msg.value,
      Call.ParseGnbCliCommand (ext.PerformExpansion msg.value).2], by simp, Or.inl rfl, rfl⟩
  · exact ⟨CliMessage.Error msg.clientAddr
        (ext.ParseGnbCliCommand (ext.PerformExpansion msg.value).2).error,
      [Call.PerformExpansion msg.value,
      Call.ParseGnbCliCommand (ext.PerformExpansion msg.value).2], by simp, Or.inr rfl, rfl⟩

/-- One iteration on a `COMMAND`: the datagram is consumed and exactly one
message is sent, a `RESULT` or an `ERROR` for the client of `msg`. -/
theorem Loop_command_one_reply (ext : Collaborators) (msg : CliMessage)
    (rest sent : List CliMessage) (calls : List Call)
    (h : msg.type = CliMessageType.COMMAND) :
    ∃ reply made, Loop ext (channelState msg rest sent calls)
        = some (afterIteration rest sent [reply] calls made)
      ∧ (reply.type = CliMessageType.RESULT ∨ reply.type = CliMessageType.ERROR)
      ∧ reply.clientAddr = msg.clientAddr := by
  have hE : msg.type ≠ CliMessageType.ECHO := by rw [h]; decide
  simp only [Loop, channelState, CliServer.receiveMessage, afterIteration, if_neg hE,
    if_neg (not_not.mpr h)]
  split_ifs
  · exact ⟨CliMessage.Error msg.clientAddr (lit "Command is too large"), [],
      by simp [sendMessage_eq], Or.inr rfl, rfl⟩
  · exact ⟨CliMessage.Error msg.clientAddr (lit "Node name is too large"), [],
      by simp [sendMessage_eq], Or.inr rfl, rfl⟩
  · obtain ⟨reply, made, hr, hk, ha⟩ :=
      ReceiveCommand_one_reply ext msg { inbound := rest, outbound := sent } calls
    exact ⟨reply, made, by simp [hr, sendMessage_eq], hk, ha⟩

/-- One iteration on an `ECHO`: the datagram is consumed and sent back. -/
theorem Loop_echo (ext : Collaborators) (msg : CliMessage)
    (rest sent : List CliMessage) (calls : List Call)
    (h : msg.type = CliMessageType.ECHO) :
    Loop ext (channelState msg rest sent calls)
      = some (afterIteration rest sent [msg] calls []) := by
  simp [Loop, channelState, CliServer.receiveMessage, afterIteration, h, sendMessage_eq]

/-- One iteration on a message that is neither `ECHO` nor `COMMAND`: the
datagram is consumed and nothing is sent. -/
theorem Loop_other (ext : Collaborators) (msg : CliMessage)
    (rest sent : List CliMessage) (calls : List Call)
    (h1 : msg.type ≠ CliMessageType.ECHO) (h2 : msg.type ≠ CliMessageType.COMMAND) :
    Loop ext (channelState msg rest sent calls)
      = some (afterIteration rest sent [] calls []) := by
  simp [Loop, channelState, CliServer.receiveMessage, afterIteration, h1, h2]

/-- A `COMMAND` that passes both size checks is handed to `ReceiveCommand`. -/
theorem Loop_command_within_limits (ext : Collaborators) (msg : CliMessage)
    (rest sent : List CliMessage) (calls : List Call)
    (h : msg.type = CliMessageType.COMMAND)
    (hv : msg.value.length ≤ 65535) (hn : msg.nodeName.length ≤ 65535) :
    Loop ext (channelState msg rest sent calls)
      = some { g_cliServer :=
                 some (ReceiveCommand ext msg { inbound := rest, outbound := sent } calls).1,
               calls := (ReceiveCommand ext msg { inbound := rest, outbound := sent } calls).2 } := by
  have hE : msg.type ≠ CliMessageType.ECHO := by rw [h]; decide
  simp only [Loop, channelState, CliServer.receiveMessage, if_neg hE, if_neg (not_not.mpr h)]
  rw [if_neg (by omega), if_neg (by omega)]

/-- A `COMMAND` whose value exceeds `0xFFFF` octets is refused before anything
else is looked at. -/
theorem Loop_value_too_large (ext : Collaborators) (msg : CliMessage)
    (rest sent : List CliMessage) (calls : List Call)
    (h : msg.type = CliMessageType.COMMAND) (hv : msg.value.length > 65535) :
    Loop ext (channelState msg rest sent calls)
      = some (afterIteration rest sent
          [CliMessage.Error msg.clientAddr (lit "Command is too large")] calls []) := by
  have hE : msg.type ≠ CliMessageType.ECHO := by rw [h]; decide
  simp only [Loop, channelState, CliServer.receiveMessage, if_neg hE, if_neg (not_not.mpr h)]
  rw [if_pos (by omega)]
  simp [afterIteration, sendMessage_eq]

/-- A `COMMAND` whose value fits and whose node name exceeds `0xFFFF` octets. -/
theorem Loop_node_too_large (ext : Collaborators) (msg : CliMessage)
    (rest sent : List CliMessage) (calls : List Call)
    (h : msg.type = CliMessageType.COMMAND) (hv : msg.value.length ≤ 65535)
    (hn : msg.nodeName.length > 65535) :
    Loop ext (channelState msg rest sent calls)
      = some (afterIteration rest sent
          [CliMessage.Error msg.clientAddr (lit "Node name is too large")] calls []) := by
  have hE : msg.type ≠ CliMessageType.ECHO := by rw [h]; decide
  simp only [Loop, channelState, CliServer.receiveMessage, if_neg hE, if_neg (not_not.mpr h)]
  rw [if_neg (by omega), if_pos (by omega)]
  simp [afterIteration, sendMessage_eq]

theorem ReceiveCommand_empty (ext : Collaborators) (msg : CliMessage) (srv : CliServer)
    (calls : List Call) (h : msg.value = []) :
    ReceiveCommand ext msg srv calls
      = (srv.sendMessage (CliMessage.Result msg.clientAddr []), calls) := by
  simp [ReceiveCommand, h, lit_empty]

theorem ReceiveCommand_invalid (ext : Collaborators) (msg : CliMessage) (srv : CliServer)
    (calls : List Call) (h : msg.value ≠ [])
    (he : (ext.PerformExpansion msg.value).1 ≠ ExpansionResult.SUCCESS) :
    ReceiveCommand ext msg srv calls
      = (srv.sendMessage
          (CliMessage.Error msg.clientAddr (lit "Invalid command: " ++ msg.value)),
         calls ++ [Call.PerformExpansion msg.value]) := by
  simp [ReceiveCommand, h, he]

theorem ReceiveCommand_no_tokens (ext : Collaborators) (msg : CliMessage) (srv : CliServer)
    (calls : List Call) (h : msg.value ≠ [])
    (he : ext.PerformExpansion msg.value = (ExpansionResult.SUCCESS, [])) :
    ReceiveCommand ext msg srv calls
      = (srv.sendMessage (CliMessage.Error msg.clientAddr (lit "Empty command")),
         calls ++ [Call.PerformExpansion msg.value]) := by
  simp [ReceiveCommand, h, he]

/-- The reply `ReceiveCommand` sends once the parser has been called, as the
first match among: error text, output, null command, command. -/
theorem ReceiveCommand_parsed (ext : Collaborators) (msg : CliMessage) (srv : CliServer)
    (calls : List Call) (tokens : List CppString) (h : msg.value ≠ [])
    (he : ext.PerformExpansion msg.value = (ExpansionResult.SUCCESS, tokens))
    (ht : tokens ≠ []) :
    ReceiveCommand ext msg srv calls
      = (srv.sendMessage
          (if (ext.ParseGnbCliCommand tokens).error ≠ [] then
             CliMessage.Error msg.clientAddr (ext.ParseGnbCliCommand tokens).error
           else if (ext.ParseGnbCliCommand tokens).output ≠ [] then
             CliMessage.Result msg.clientAddr (ext.ParseGnbCliCommand tokens).output
           else if (ext.ParseGnbCliCommand tokens).cmd = none then
             CliMessage.Error msg.clientAddr []
           else CliMessage.Error msg.clientAddr (lit "Not implemented yet")),
         calls ++ [Call.PerformExpansion msg.value, Call.ParseGnbCliCommand tokens]) := by
  simp only [ReceiveCommand, he, List.isEmpty_iff, if_neg h, if_neg ht, ne_eq,
    not_true_eq_false, if_false, lit_empty]
  split_ifs <;> simp

/-- One iteration on an `ECHO` or a `COMMAND` sends one message, addressed to
the client of the inbound message. -/
theorem Loop_request_reply_address (ext : Collaborators) (msg : CliMessage)
    (rest sent : List CliMessage) (calls : List Call)
    (h : msg.type = CliMessageType.ECHO ∨ msg.type = CliMessageType.COMMAND) :
    ∃ reply made, Loop ext (channelState msg rest sent calls)
        = some (afterIteration rest sent [reply] calls made)
      ∧ reply.clientAddr = msg.clientAddr := by
  rcases h with h | h
  · exact ⟨msg, [], Loop_echo ext msg rest sent calls h, rfl⟩
  · obtain ⟨reply, made, hr, _, ha⟩ := Loop_command_one_reply ext msg rest sent calls h
    exact ⟨reply, made, hr, ha⟩

theorem afterIteration_cons (m : CliMessage) (rest sent replies : List CliMessage)
    (calls made : List Call) :
    afterIteration (m :: rest) sent replies calls made
      = channelState m rest (sent ++ replies) (calls ++ made) := rfl

theorem afterIteration_twice (rest sent r1 r2 : List CliMessage) (calls m1 m2 : List Call) :
    afterIteration rest (sent ++ r1) r2 (calls ++ m1) m2
      = afterIteration rest sent (r1 ++ r2) calls (m1 ++ m2) := by
  simp [afterIteration]

theorem empty_command_ne_invalid (a : InetAddress) (v : CppString) :
    CliMessage.Error a (lit "Empty command")
      ≠ CliMessage.Error a (lit "Invalid command: " ++ v) := by
  intro h
  have hh := congrArg (fun m => m.value.head?) h
  simp [CliMessage.Error, lit] at hh
  exact absurd hh (by decide)

theorem error_ne_result (a : InetAddress) (v w : CppString) :
    CliMessage.Error a v ≠ CliMessage.Result a w := by
  intro h
  have hh := congrArg (fun m => m.type) h
  simp [CliMessage.Error, CliMessage.Result] at hh

/-! ## The claims -/

/-- C1: while the channel exists, for every inbound message and whatever the
tokenizer and the parser return, one iteration of `Loop` consumes the message
and sends exactly one message when its kind is `ECHO` or `COMMAND`, and none
when its kind is anything else. -/
theorem Loop_reply_count (ext : Collaborators) (msg : CliMessage)
    (rest sent : List CliMessage) (calls : List Call) :
    ∃ replies made, Loop ext (channelState msg rest sent calls)
        = some (afterIteration rest sent replies calls made)
      ∧ replies.length
          = if msg.type = CliMessageType.ECHO ∨ msg.type = CliMessageType.COMMAND then 1 else 0 := by
  by_cases h1 : msg.type = CliMessageType.ECHO
  · exact ⟨[msg], [], Loop_echo ext msg rest sent calls h1, by simp [h1]⟩
  · by_cases h2 : msg.type = CliMessageType.COMMAND
    · obtain ⟨reply, made, hr, _⟩ := Loop_command_one_reply ext msg rest sent calls h2
      exact ⟨[reply], made, hr, by simp [h2]⟩
    · exact ⟨[], [], Loop_other ext msg rest sent calls h1 h2, by simp [h1, h2]⟩

/-- C2: every message `Loop` sends in response to an inbound `COMMAND` is a
`RESULT` or an `ERROR` addressed to the client address of that `COMMAND`
(exactly one such message is sent); and two successive requests (`ECHO` or
`COMMAND`) from different client addresses are answered by two messages, the
first addressed to the first client and not to the second, the second
addressed to the second client and not to the first. -/
theorem Loop_command_reply_kind_and_address (ext : Collaborators) :
    (∀ (msg : CliMessage) (rest sent : List CliMessage) (calls : List Call),
      msg.type = CliMessageType.COMMAND →
      ∃ reply made, Loop ext (channelState msg rest sent calls)
          = some (afterIteration rest sent [reply] calls made)
        ∧ (reply.type = CliMessageType.RESULT ∨ reply.type = CliMessageType.ERROR)
        ∧ reply.clientAddr = msg.clientAddr)
    ∧ (∀ (m1 m2 : CliMessage) (rest sent : List CliMessage) (calls : List Call),
      (m1.type = CliMessageType.ECHO ∨ m1.type = CliMessageType.COMMAND) →
      (m2.type = CliMessageType.ECHO ∨ m2.type = CliMessageType.COMMAND) →
      m1.clientAddr ≠ m2.clientAddr →
      ∃ r1 r2 made,
        (Loop ext (channelState m1 (m2 :: rest) sent calls)).bind (Loop ext)
          = some (afterIteration rest sent [r1, r2] calls made)
        ∧ r1.clientAddr = m1.clientAddr ∧ r1.clientAddr ≠ m2.clientAddr
        ∧ r2.clientAddr = m2.clientAddr ∧ r2.clientAddr ≠ m1.clientAddr) := by
  refine ⟨fun msg rest sent calls h => Loop_command_one_reply ext msg rest sent calls h, ?_⟩
  intro m1 m2 rest sent calls h1 h2 hne
  obtain ⟨r1, made1, e1, a1⟩ := Loop_request_reply_address ext m1 (m2 :: rest) sent calls h1
  obtain ⟨r2, made2, e2, a2⟩ :=
    Loop_request_reply_address ext m2 rest (sent ++ [r1]) (calls ++ made1) h2
  refine ⟨r1, r2, made1 ++ made2, ?_, a1, ?_, a2, ?_⟩
  · rw [e1, Option.some_bind, afterIteration_cons, e2, afterIteration_twice]
    rfl
  · rw [a1]; exact hne
  · rw [a2]; exact fun h => hne h.symm

/-- Witness of C2: a `COMMAND` from `addrA`, and a `COMMAND` from `addrA`
followed by one from `addrB`. -/
theorem Loop_command_reply_kind_and_address_witness :
    (∃ reply made,
        Loop resolvingExt (channelState (commandFrom addrA [] (lit "status")) [] [] [])
          = some (afterIteration [] [] [reply] [] made)
        ∧ (reply.type = CliMessageType.RESULT ∨ reply.type = CliMessageType.ERROR)
        ∧ reply.clientAddr = addrA)
    ∧ (∃ r1 r2 made,
        (Loop resolvingExt (channelState (commandFrom addrA [] (lit "status"))
            [commandFrom addrB [] (lit "info")] [] [])).bind (Loop resolvingExt)
          = some (afterIteration [] [] [r1, r2] [] made)
        ∧ r1.clientAddr = addrA ∧ r1.clientAddr ≠ addrB
        ∧ r2.clientAddr = addrB ∧ r2.clientAddr ≠ addrA) :=
  ⟨(Loop_command_reply_kind_and_address resolvingExt).1
      (commandFrom addrA [] (lit "status")) [] [] [] rfl,
   (Loop_command_reply_kind_and_address resolvingExt).2
      (commandFrom addrA [] (lit "status")) (commandFrom addrB [] (lit "info")) [] [] []
      (Or.inr rfl) (Or.inr rfl) (by decide)⟩

/-- C3: for every inbound `ECHO`, whatever its value, node name and client
address (no bound on their sizes is assumed), `Loop` sends exactly one message
and that message equals the inbound one in kind, client address, node name and
value; neither collaborator is called. -/
theorem Loop_echo_identical (ext : Collaborators) (msg : CliMessage)
    (rest sent : List CliMessage) (calls : List Call)
    (h : msg.type = CliMessageType.ECHO) :
    ∃ reply, Loop ext (channelState msg rest sent calls)
        = some (afterIteration rest sent [reply] calls [])
      ∧ reply.type = msg.type ∧ reply.clientAddr = msg.clientAddr
      ∧ reply.nodeName = msg.nodeName ∧ reply.value = msg.value ∧ reply = msg :=
  ⟨msg, Loop_echo ext msg rest sent calls h, rfl, rfl, rfl, rfl, rfl⟩

/-- Witness of C3: an `ECHO` whose value has 65536 octets. -/
theorem Loop_echo_identical_witness :
    ∃ reply, Loop resolvingExt (channelState
          { type := CliMessageType.ECHO, clientAddr := addrA, nodeName := lit "gnb1",
            value := oversized } [] [] [])
        = some (afterIteration [] [] [reply] [] [])
      ∧ reply.type = CliMessageType.ECHO ∧ reply.clientAddr = addrA
      ∧ reply.nodeName = lit "gnb1" ∧ reply.value = oversized
      ∧ reply = { type := CliMessageType.ECHO, clientAddr := addrA, nodeName := lit "gnb1",
                  value := oversized } :=
  Loop_echo_identical resolvingExt
    { type := CliMessageType.ECHO, clientAddr := addrA, nodeName := lit "gnb1",
      value := oversized } [] [] [] rfl

/-- C4: for every inbound `COMMAND` whose value is longer than 65535 octets,
whatever its node name, `Loop` sends exactly one message, the `ERROR` with
text "Command is too large" for the client, and makes no call to the tokenizer
or to the parser. -/
theorem Loop_command_too_large (ext : Collaborators) (msg : CliMessage)
    (rest sent : List CliMessage) (calls : List Call)
    (h : msg.type = CliMessageType.COMMAND) (hv : msg.value.length > 65535) :
    Loop ext (channelState msg rest sent calls)
      = some (afterIteration rest sent
          [CliMessage.Error msg.clientAddr (lit "Command is too large")] calls []) :=
  Loop_value_too_large ext msg rest sent calls h hv

/-- Witness of C4: a `COMMAND` whose value has 65536 octets. -/
theorem Loop_command_too_large_witness :
    (commandFrom addrA (lit "gnb1") oversized).value.length > 65535
    ∧ Loop resolvingExt (channelState (commandFrom addrA (lit "gnb1") oversized) [] [] [])
      = some (afterIteration [] [] [CliMessage.Error addrA (lit "Command is too large")] [] []) :=
  ⟨by simp [commandFrom, oversized_length],
   Loop_command_too_large resolvingExt (commandFrom addrA (lit "gnb1") oversized) [] [] [] rfl
     (by simp [commandFrom, oversized_length])⟩

/-- C5, as stated, fails: a `COMMAND` whose node name has 65536 octets and
whose value has 65536 octets as well is answered with "Command is too large",
not with "Node name is too large", because the value is checked first. -/
theorem Loop_node_name_too_large_unrestricted_fails :
    (commandFrom addrA oversized oversized).type = CliMessageType.COMMAND
    ∧ (commandFrom addrA oversized oversized).nodeName.length > 65535
    ∧ Loop resolvingExt (channelState (commandFrom addrA oversized oversized) [] [] [])
      = some (afterIteration [] [] [CliMessage.Error addrA (lit "Command is too large")] [] [])
    ∧ CliMessage.Error addrA (lit "Command is too large")
      ≠ CliMessage.Error addrA (lit "Node name is too large")
    ∧ ¬ (∀ (ext : Collaborators) (msg : CliMessage) (rest sent : List CliMessage)
          (calls : List Call),
          msg.type = CliMessageType.COMMAND → msg.nodeName.length > 65535 →
          ∃ made, Loop ext (channelState msg rest sent calls)
            = some (afterIteration rest sent
                [CliMessage.Error msg.clientAddr (lit "Node name is too large")] calls made)) := by
  have hlen : (commandFrom addrA oversized oversized).nodeName.length > 65535 := by
    simp [commandFrom, oversized_length]
  have hrun := Loop_value_too_large resolvingExt (commandFrom addrA oversized oversized)
    [] [] [] rfl (by simp [commandFrom, oversized_length])
  have hne : CliMessage.Error addrA (lit "Command is too large")
      ≠ CliMessage.Error addrA (lit "Node name is too large") := by decide
  refine ⟨rfl, hlen, hrun, hne, ?_⟩
  intro hall
  obtain ⟨made, hm⟩ := hall resolvingExt (commandFrom addrA oversized oversized) [] [] [] rfl hlen
  rw [hrun] at hm
  simp only [afterIteration, Option.some.injEq, Globals.mk.injEq, CliServer.mk.injEq,
    List.nil_append, List.cons.injEq, and_true, true_and] at hm
  exact hne hm.1

/-- C5, amended: for every inbound `COMMAND` whose value is at most 65535 octets
long and whose node name is longer than 65535 octets, `Loop` sends exactly one
message, the `ERROR` with text "Node name is too large" for the client, and
makes no call to the tokenizer or to the parser. -/
theorem Loop_node_name_too_large (ext : Collaborators) (msg : CliMessage)
    (rest sent : List CliMessage) (calls : List Call)
    (h : msg.type = CliMessageType.COMMAND) (hv : msg.value.length ≤ 65535)
    (hn : msg.nodeName.length > 65535) :
    Loop ext (channelState msg rest sent calls)
      = some (afterIteration rest sent
          [CliMessage.Error msg.clientAddr (lit "Node name is too large")] calls []) :=
  Loop_node_too_large ext msg rest sent calls h hv hn

/-- Witness of C5 (amended): a `COMMAND` with a 6-octet value for a node name of
65536 octets. -/
theorem Loop_node_name_too_large_witness :
    (commandFrom addrA oversized (lit "status")).nodeName.length > 65535
    ∧ Loop resolvingExt (channelState (commandFrom addrA oversized (lit "status")) [] [] [])
      = some (afterIteration [] [] [CliMessage.Error addrA (lit "Node name is too large")]
          [] []) :=
  ⟨by simp [commandFrom, oversized_length],
   Loop_node_name_too_large resolvingExt (commandFrom addrA oversized (lit "status")) [] [] []
     rfl (by decide) (by simp [commandFrom, oversized_length])⟩

/-- C6: for every inbound `COMMAND` whose node name is at most 65535 octets long
and whose value is the empty string, `Loop` sends exactly one message, the
`RESULT` with the empty string as value for the client, and makes no call to
the tokenizer or to the parser. -/
theorem Loop_empty_value (ext : Collaborators) (msg : CliMessage)
    (rest sent : List CliMessage) (calls : List Call)
    (h : msg.type = CliMessageType.COMMAND) (hn : msg.nodeName.length ≤ 65535)
    (he : msg.value = []) :
    Loop ext (channelState msg rest sent calls)
      = some (afterIteration rest sent [CliMessage.Result msg.clientAddr []] calls []) := by
  rw [Loop_command_within_limits ext msg rest sent calls h (by simp [he]) hn,
    ReceiveCommand_empty ext msg _ calls he]
  simp [afterIteration, sendMessage_eq]

/-- Witness of C6: an empty `COMMAND` for node `gnb1`. -/
theorem Loop_empty_value_witness :
    Loop resolvingExt (channelState (commandFrom addrA (lit "gnb1") []) [] [] [])
      = some (afterIteration [] [] [CliMessage.Result addrA []] [] []) :=
  Loop_empty_value resolvingExt (commandFrom addrA (lit "gnb1") []) [] [] [] rfl
    (by decide) rfl

/-- C7: for every inbound `COMMAND` within the size limits with a non-empty
value `v` for which `PerformExpansion` returns anything other than `SUCCESS`,
`Loop` sends exactly one message, the `ERROR` whose text is
"Invalid command: " followed by `v` unchanged; the parser is not called. -/
theorem Loop_invalid_command (ext : Collaborators) (msg : CliMessage)
    (rest sent : List CliMessage) (calls : List Call)
    (h : msg.type = CliMessageType.COMMAND) (hv : msg.value.length ≤ 65535)
    (hn : msg.nodeName.length ≤ 65535) (hne : msg.value ≠ [])
    (he : (ext.PerformExpansion msg.value).1 ≠ ExpansionResult.SUCCESS) :
    Loop ext (channelState msg rest sent calls)
      = some (afterIteration rest sent
          [CliMessage.Error msg.clientAddr (lit "Invalid command: " ++ msg.value)]
          calls [Call.PerformExpansion msg.value]) := by
  rw [Loop_command_within_limits ext msg rest sent calls h hv hn,
    ReceiveCommand_invalid ext msg _ calls hne he]
  simp [afterIteration, sendMessage_eq]

/-- Witness of C7: the value is `foo`, a blank, a double quote (octet 34) and
`bar`; the tokenizer rejects it. -/
theorem Loop_invalid_command_witness :
    Loop rejectingExt
        (channelState (commandFrom addrA (lit "gnb1") (lit "foo " ++ [34] ++ lit "bar")) [] [] [])
      = some (afterIteration [] []
          [CliMessage.Error addrA
            (lit "Invalid command: " ++ (lit "foo " ++ [34] ++ lit "bar"))]
          [] [Call.PerformExpansion (lit "foo " ++ [34] ++ lit "bar")]) :=
  Loop_invalid_command rejectingExt
    (commandFrom addrA (lit "gnb1") (lit "foo " ++ [34] ++ lit "bar")) [] [] [] rfl
    (by decide) (by decide) (by decide) (by decide)

/-- C8: for every inbound `COMMAND` within the size limits with a non-empty
value for which `PerformExpansion` returns `SUCCESS` and leaves `tokens`
empty, `Loop` sends exactly one message, the `ERROR` with text
"Empty command"; the only collaborator call is the one to the tokenizer (the
parser is not called); and that reply differs both from the reply to a
tokenizer failure and from the reply to an empty value. -/
theorem Loop_empty_command (ext : Collaborators) (msg : CliMessage)
    (rest sent : List CliMessage) (calls : List Call)
    (h : msg.type = CliMessageType.COMMAND) (hv : msg.value.length ≤ 65535)
    (hn : msg.nodeName.length ≤ 65535) (hne : msg.value ≠ [])
    (he : ext.PerformExpansion msg.value = (ExpansionResult.SUCCESS, [])) :
    Loop ext (channelState msg rest sent calls)
      = some (afterIteration rest sent
          [CliMessage.Error msg.clientAddr (lit "Empty command")]
          calls [Call.PerformExpansion msg.value])
    ∧ CliMessage.Error msg.clientAddr (lit "Empty command")
      ≠ CliMessage.Error msg.clientAddr (lit "Invalid command: " ++ msg.value)
    ∧ CliMessage.Error msg.clientAddr (lit "Empty command")
      ≠ CliMessage.Result msg.clientAddr [] := by
  refine ⟨?_, empty_command_ne_invalid _ _, error_ne_result _ _ _⟩
  rw [Loop_command_within_limits ext msg rest sent calls h hv hn,
    ReceiveCommand_no_tokens ext msg _ calls hne he]
  simp [afterIteration, sendMessage_eq]

/-- Witness of C8: a value of two blanks, in which the tokenizer finds no
token. -/
theorem Loop_empty_command_witness :
    Loop blankExt (channelState (commandFrom addrA (lit "gnb1") (lit "  ")) [] [] [])
      = some (afterIteration [] [] [CliMessage.Error addrA (lit "Empty command")]
          [] [Call.PerformExpansion (lit "  ")])
    ∧ CliMessage.Error addrA (lit "Empty command")
      ≠ CliMessage.Error addrA (lit "Invalid command: " ++ lit "  ")
    ∧ CliMessage.Error addrA (lit "Empty command") ≠ CliMessage.Result addrA [] :=
  Loop_empty_command blankExt (commandFrom addrA (lit "gnb1") (lit "  ")) [] [] [] rfl
    (by decide) (by decide) (by decide) rfl

/-- C9: for every inbound `COMMAND` within the size limits whose value is
tokenized (it is not empty, so `PerformExpansion` is run on it) with `SUCCESS`
into at least one token, and for which the parser, whose result has at most
one of command object, error text and output populated, returns a structured
command (a non-null command object), `Loop` sends exactly one message, the
`ERROR` with text "Not implemented yet". -/
theorem Loop_structured_command (ext : Collaborators) (msg : CliMessage)
    (rest sent : List CliMessage) (calls : List Call) (tokens : List CppString)
    (h : msg.type = CliMessageType.COMMAND) (hv : msg.value.length ≤ 65535)
    (hn : msg.nodeName.length ≤ 65535) (hne : msg.value ≠ [])
    (he : ext.PerformExpansion msg.value = (ExpansionResult.SUCCESS, tokens))
    (ht : tokens ≠ [])
    (hx : (ext.ParseGnbCliCommand tokens).atMostOnePopulated)
    (hc : (ext.ParseGnbCliCommand tokens).cmd ≠ none) :
    Loop ext (channelState msg rest sent calls)
      = some (afterIteration rest sent
          [CliMessage.Error msg.clientAddr (lit "Not implemented yet")]
          calls [Call.PerformExpansion msg.value, Call.ParseGnbCliCommand tokens]) := by
  obtain ⟨herr, hout⟩ := hx.1 hc
  rw [Loop_command_within_limits ext msg rest sent calls h hv hn,
    ReceiveCommand_parsed ext msg _ calls tokens hne he ht,
    if_neg (not_not.mpr herr), if_neg (not_not.mpr hout), if_neg hc]
  simp [afterIteration, sendMessage_eq]

/-- Witness of C9: the value `status`, one token, and a parser that returns a
command object only. -/
theorem Loop_structured_command_witness :
    Loop resolvingExt (channelState (commandFrom addrA (lit "gnb1") (lit "status")) [] [] [])
      = some (afterIteration [] [] [CliMessage.Error addrA (lit "Not implemented yet")]
          [] [Call.PerformExpansion (lit "status"), Call.ParseGnbCliCommand [lit "status"]]) :=
  Loop_structured_command resolvingExt (commandFrom addrA (lit "gnb1") (lit "status"))
    [] [] [] [lit "status"] rfl (by decide) (by decide) (by decide) rfl
    (by decide) (by decide) (by decide)

/-- C10: for every inbound `COMMAND` that reaches the parser (within the size
limits, non-empty value, tokenizer `SUCCESS` with at least one token), when
exactly one of the three parser results is populated: if it is a non-empty
error text `e` (null command, empty output), `Loop` sends exactly one message,
the `ERROR` with text `e` unchanged; if it is a non-empty output `o` (null
command, empty error text), `Loop` sends exactly one message, the `RESULT`
with value `o` unchanged. -/
theorem Loop_parser_result_carried (ext : Collaborators) (msg : CliMessage)
    (rest sent : List CliMessage) (calls : List Call) (tokens : List CppString)
    (h : msg.type = CliMessageType.COMMAND) (hv : msg.value.length ≤ 65535)
    (hn : msg.nodeName.length ≤ 65535) (hne : msg.value ≠ [])
    (he : ext.PerformExpansion msg.value = (ExpansionResult.SUCCESS, tokens))
    (ht : tokens ≠ []) :
    (∀ e : CppString, e ≠ [] →
      ext.ParseGnbCliCommand tokens = { cmd := none, error := e, output := [] } →
      Loop ext (channelState msg rest sent calls)
        = some (afterIteration rest sent [CliMessage.Error msg.clientAddr e]
            calls [Call.PerformExpansion msg.value, Call.ParseGnbCliCommand tokens]))
    ∧ (∀ o : CppString, o ≠ [] →
      ext.ParseGnbCliCommand tokens = { cmd := none, error := [], output := o } →
      Loop ext (channelState msg rest sent calls)
        = some (afterIteration rest sent [CliMessage.Result msg.clientAddr o]
            calls [Call.PerformExpansion msg.value, Call.ParseGnbCliCommand tokens])) := by
  constructor
  · intro e hE hp
    rw [Loop_command_within_limits ext msg rest sent calls h hv hn,
      ReceiveCommand_parsed ext msg _ calls tokens hne he ht, hp]
    simp [afterIteration, sendMessage_eq, hE]
  · intro o hO hp
    rw [Loop_command_within_limits ext msg rest sent calls h hv hn,
      ReceiveCommand_parsed ext msg _ calls tokens hne he ht, hp]
    simp [afterIteration, sendMessage_eq, hO]

/-- Witness of C10: the value `status` with a parser that reports the error
text `boom`, and with a parser that produces the output `usage`. -/
theorem Loop_parser_result_carried_witness :
    Loop errorExt (channelState (commandFrom addrA (lit "gnb1") (lit "status")) [] [] [])
      = some (afterIteration [] [] [CliMessage.Error addrA (lit "boom")]
          [] [Call.PerformExpansion (lit "status"), Call.ParseGnbCliCommand [lit "status"]])
    ∧ Loop outputExt (channelState (commandFrom addrA (lit "gnb1") (lit "status")) [] [] [])
      = some (afterIteration [] [] [CliMessage.Result addrA (lit "usage")]
          [] [Call.PerformExpansion (lit "status"), Call.ParseGnbCliCommand [lit "status"]]) :=
  ⟨(Loop_parser_result_carried errorExt (commandFrom addrA (lit "gnb1") (lit "status"))
      [] [] [] [lit "status"] rfl (by decide) (by decide) (by decide) rfl (by decide)).1
      (lit "boom") (by decide) rfl,
   (Loop_parser_result_carried outputExt (commandFrom addrA (lit "gnb1") (lit "status"))
      [] [] [] [lit "status"] rfl (by decide) (by decide) (by decide) rfl (by decide)).2
      (lit "usage") (by decide) rfl⟩

/-! ## Sizes of outbound messages -/

theorem maximal_length : maximal.length = 65535 :=
  List.length_replicate 65535 (0 : Byte)

theorem invalid_reply_length (a : InetAddress) (v : CppString) :
    (CliMessage.Error a (lit "Invalid command: " ++ v)).value.length = 17 + v.length := by
  simp only [CliMessage.Error, List.length_append]
  rfl

/-- The value and the node name of the reply to a `COMMAND` that passed the
size checks, under bounds on what the collaborators return. -/
theorem ReceiveCommand_reply_sizes (ext : Collaborators) (msg : CliMessage) (srv : CliServer)
    (calls : List Call)
    (hinv : (ext.PerformExpansion msg.value).1 ≠ ExpansionResult.SUCCESS →
      msg.value.length ≤ 65518)
    (hparse : ∀ tokens, (ext.ParseGnbCliCommand tokens).error.length ≤ 65535
      ∧ (ext.ParseGnbCliCommand tokens).output.length ≤ 65535) :
    ∃ reply made, ReceiveCommand ext msg srv calls = (srv.sendMessage reply, calls ++ made)
      ∧ reply.value.length ≤ 65535 ∧ reply.nodeName.length ≤ 65535 := by
  by_cases hne : msg.value = []
  · exact ⟨CliMessage.Result msg.clientAddr [], [],
      by rw [ReceiveCommand_empty ext msg srv calls hne, List.append_nil],
      Nat.zero_le _, Nat.zero_le _⟩
  · by_cases he : (ext.PerformExpansion msg.value).1 = ExpansionResult.SUCCESS
    · by_cases ht : (ext.PerformExpansion msg.value).2 = []
      · refine ⟨_, _, ReceiveCommand_no_tokens ext msg srv calls hne
          (Prod.ext he ht), ?_, by simp [CliMessage.Error]⟩
        show (lit "Empty command").length ≤ 65535
        decide
      · refine ⟨_, _, ReceiveCommand_parsed ext msg srv calls _ hne (Prod.ext he rfl) ht, ?_, ?_⟩
        · split_ifs
          · exact (hparse _).1
          · exact (hparse _).2
          · simp [CliMessage.Error]
          · show (lit "Not implemented yet").length ≤ 65535
            decide
        · split_ifs <;> simp [CliMessage.Error, CliMessage.Result]
    · refine ⟨_, _, ReceiveCommand_invalid ext msg srv calls hne he, ?_,
        by simp [CliMessage.Error]⟩
      rw [invalid_reply_length]
      have := hinv he
      omega

/-! ## The claims, continued -/

/-- C11, as stated, fails on both messages it names: an `ECHO` whose value has
65536 octets is sent back as it is, and a `COMMAND` whose value has 65535
octets (within the limit) and is rejected by the tokenizer is answered with
"Invalid command: " followed by the value, 65552 octets in all. -/
theorem Loop_outbound_bound_fails :
    (Loop resolvingExt (channelState oversizedEcho [] [] [])
        = some (afterIteration [] [] [oversizedEcho] [] [])
      ∧ oversizedEcho.value.length = 65536)
    ∧ ((commandFrom addrA (lit "gnb1") maximal).value.length = 65535
      ∧ Loop rejectingExt (channelState (commandFrom addrA (lit "gnb1") maximal) [] [] [])
        = some (afterIteration [] []
            [CliMessage.Error addrA (lit "Invalid command: " ++ maximal)] []
            [Call.PerformExpansion maximal])
      ∧ (CliMessage.Error addrA (lit "Invalid command: " ++ maximal)).value.length = 65552) := by
  refine ⟨⟨Loop_echo resolvingExt oversizedEcho [] [] [] rfl, oversized_length⟩,
    maximal_length, ?_, ?_⟩
  · have hne : (commandFrom addrA (lit "gnb1") maximal).value ≠ [] := by
      intro h
      have hl := congrArg List.length h
      rw [show (commandFrom addrA (lit "gnb1") maximal).value = maximal from rfl,
        maximal_length] at hl
      exact absurd hl (by decide)
    rw [Loop_command_within_limits rejectingExt _ [] [] [] rfl
        (le_of_eq maximal_length) (by decide),
      ReceiveCommand_invalid rejectingExt _ _ [] hne (by decide)]
    rfl
  · rw [invalid_reply_length, maximal_length]

/-- C11, amended: every message `Loop` sends has a value of at most 65535
octets and a node name of at most 65535 octets, provided that an inbound
`ECHO` is itself within these two bounds, that a `COMMAND` value the tokenizer
rejects is at most 65518 octets long, and that the error text and the output
the parser returns are at most 65535 octets long. -/
theorem Loop_outbound_bound (ext : Collaborators) (msg : CliMessage)
    (rest sent : List CliMessage) (calls : List Call)
    (hecho : msg.type = CliMessageType.ECHO →
      msg.value.length ≤ 65535 ∧ msg.nodeName.length ≤ 65535)
    (hinv : msg.type = CliMessageType.COMMAND →
      (ext.PerformExpansion msg.value).1 ≠ ExpansionResult.SUCCESS →
      msg.value.length ≤ 65518)
    (hparse : ∀ tokens, (ext.ParseGnbCliCommand tokens).error.length ≤ 65535
      ∧ (ext.ParseGnbCliCommand tokens).output.length ≤ 65535) :
    ∃ replies made, Loop ext (channelState msg rest sent calls)
        = some (afterIteration rest sent replies calls made)
      ∧ ∀ r ∈ replies, r.value.length ≤ 65535 ∧ r.nodeName.length ≤ 65535 := by
  by_cases h1 : msg.type = CliMessageType.ECHO
  · exact ⟨[msg], [], Loop_echo ext msg rest sent calls h1, by simpa using hecho h1⟩
  · by_cases h2 : msg.type = CliMessageType.COMMAND
    · by_cases hv : msg.value.length > 65535
      · exact ⟨_, [], Loop_value_too_large ext msg rest sent calls h2 hv, by
          intro r hr
          rw [List.mem_singleton] at hr
          subst hr
          exact ⟨by show (lit "Command is too large").length ≤ 65535; decide,
            by simp [CliMessage.Error]⟩⟩
      · by_cases hn : msg.nodeName.length > 65535
        · exact ⟨_, [], Loop_node_too_large ext msg rest sent calls h2 (by omega) hn, by
            intro r hr
            rw [List.mem_singleton] at hr
            subst hr
            exact ⟨by show (lit "Node name is too large").length ≤ 65535; decide,
              by simp [CliMessage.Error]⟩⟩
        · obtain ⟨reply, made, hr, hval, hnode⟩ := ReceiveCommand_reply_sizes ext msg
            { inbound := rest, outbound := sent } calls (hinv h2) hparse
          refine ⟨[reply], made, ?_, by simpa using ⟨hval, hnode⟩⟩
          rw [Loop_command_within_limits ext msg rest sent calls h2 (by omega) (by omega), hr]
          rfl
    · exact ⟨[], [], Loop_other ext msg rest sent calls h1 h2, by simp⟩

/-- Witness of C11 (amended): a `COMMAND` with the value `status` that the
tokenizer rejects. -/
theorem Loop_outbound_bound_witness :
    ∃ replies made,
      Loop rejectingExt (channelState (commandFrom addrA (lit "gnb1") (lit "status")) [] [] [])
        = some (afterIteration [] [] replies [] made)
      ∧ ∀ r ∈ replies, r.value.length ≤ 65535 ∧ r.nodeName.length ≤ 65535 :=
  Loop_outbound_bound rejectingExt (commandFrom addrA (lit "gnb1") (lit "status")) [] [] []
    (fun h => absurd h (by decide)) (fun _ _ => by decide) (fun _ => ⟨Nat.zero_le _, Nat.zero_le _⟩)

/-- C19: for every inbound `COMMAND` that reaches the parser, the reply is
chosen by first match in the order: non-empty error text (`ERROR` with it),
non-empty output (`RESULT` with it), null command (`ERROR` with the empty
string), otherwise `ERROR` "Not implemented yet"; in particular, when the
parser returns no command object, an empty error text and an empty output, the
reply is the `ERROR` with the empty string, which is not the
"Not implemented yet" reply. -/
theorem Loop_parser_first_match (ext : Collaborators) (msg : CliMessage)
    (rest sent : List CliMessage) (calls : List Call) (tokens : List CppString)
    (h : msg.type = CliMessageType.COMMAND) (hv : msg.value.length ≤ 65535)
    (hn : msg.nodeName.length ≤ 65535) (hne : msg.value ≠ [])
    (he : ext.PerformExpansion msg.value = (ExpansionResult.SUCCESS, tokens))
    (ht : tokens ≠ []) :
    Loop ext (channelState msg rest sent calls)
      = some (afterIteration rest sent
          [if (ext.ParseGnbCliCommand tokens).error ≠ [] then
             CliMessage.Error msg.clientAddr (ext.ParseGnbCliCommand tokens).error
           else if (ext.ParseGnbCliCommand tokens).output ≠ [] then
             CliMessage.Result msg.clientAddr (ext.ParseGnbCliCommand tokens).output
           else if (ext.ParseGnbCliCommand tokens).cmd = none then
             CliMessage.Error msg.clientAddr []
           else CliMessage.Error msg.clientAddr (lit "Not implemented yet")]
          calls [Call.PerformExpansion msg.value, Call.ParseGnbCliCommand tokens])
    ∧ (ext.ParseGnbCliCommand tokens = { cmd := none, error := [], output := [] } →
        Loop ext (channelState msg rest sent calls)
          = some (afterIteration rest sent [CliMessage.Error msg.clientAddr []]
              calls [Call.PerformExpansion msg.value, Call.ParseGnbCliCommand tokens])
        ∧ CliMessage.Error msg.clientAddr []
          ≠ CliMessage.Error msg.clientAddr (lit "Not implemented yet")) := by
  have hrun := Loop_command_within_limits ext msg rest sent calls h hv hn
  rw [ReceiveCommand_parsed ext msg _ calls tokens hne he ht] at hrun
  refine ⟨by rw [hrun]; rfl, fun hp => ⟨?_, ?_⟩⟩
  · rw [hrun, hp]
    rfl
  · intro hc
    have hl : ([] : CppString).length = (lit "Not implemented yet").length :=
      congrArg (fun m => m.value.length) hc
    exact absurd hl (by decide)

/-- Witness of C19: the value `status` with a parser that returns nothing. -/
theorem Loop_parser_first_match_witness :
    Loop silentExt (channelState (commandFrom addrA (lit "gnb1") (lit "status")) [] [] [])
      = some (afterIteration [] [] [CliMessage.Error addrA []] []
          [Call.PerformExpansion (lit "status"), Call.ParseGnbCliCommand [lit "status"]])
    ∧ CliMessage.Error addrA [] ≠ CliMessage.Error addrA (lit "Not implemented yet") :=
  (Loop_parser_first_match silentExt (commandFrom addrA (lit "gnb1") (lit "status"))
    [] [] [] [lit "status"] rfl (by decide) (by decide) (by decide) rfl (by decide)).2 rfl

/-! ## The node map -/

theorem find_assign_self (m : GnbMap) (name : CppString) (gnb : GNodeB) :
    (m.assign name gnb).find name = some gnb := by
  induction m with
  | nil => simp [GnbMap.assign, GnbMap.find, List.lookup]
  | cons kv rest ih =>
    obtain ⟨k, v⟩ := kv
    by_cases hk : k = name
    · subst hk
      simp [GnbMap.assign, GnbMap.find, List.lookup]
    · have hb : (name == k) = false := by
        simpa using fun h => hk h.symm
      simp only [GnbMap.assign, if_neg hk, GnbMap.find, List.lookup, hb]
      exact ih

theorem find_assign_other (m : GnbMap) (name other : CppString) (gnb : GNodeB)
    (hne : other ≠ name) :
    (m.assign name gnb).find other = m.find other := by
  induction m with
  | nil =>
    have hb : (other == name) = false := by simpa using hne
    simp [GnbMap.assign, GnbMap.find, List.lookup, hb]
  | cons kv rest ih =>
    obtain ⟨k, v⟩ := kv
    by_cases hk : k = name
    · subst hk
      have hb : (other == k) = false := by simpa using hne
      simp [GnbMap.assign, GnbMap.find, List.lookup, hb]
    · simp only [GnbMap.assign, if_neg hk, GnbMap.find, List.lookup]
      cases hb : (other == k) with
      | true => rfl
      | false => exact ih

/-- C18, as stated, fails: registering node 2 under the name under which
node 1 is registered does not fail and does not leave the entry in place; the
name then looks up node 2. -/
theorem registerNode_duplicate_replaces :
    (registerNode [] (sampleConfig 208 93 false (lit "UERANSIM-gnb-208-93-1") [] []) 1).find
        (lit "UERANSIM-gnb-208-93-1") = some 1
    ∧ (registerNode
          (registerNode [] (sampleConfig 208 93 false (lit "UERANSIM-gnb-208-93-1") [] []) 1)
          (sampleConfig 208 93 false (lit "UERANSIM-gnb-208-93-1") [] []) 2).find
        (lit "UERANSIM-gnb-208-93-1") = some 2
    ∧ registerNode
          (registerNode [] (sampleConfig 208 93 false (lit "UERANSIM-gnb-208-93-1") [] []) 1)
          (sampleConfig 208 93 false (lit "UERANSIM-gnb-208-93-1") [] []) 2
        ≠ registerNode [] (sampleConfig 208 93 false (lit "UERANSIM-gnb-208-93-1") [] []) 1 := by
  decide

/-- C18, amended: registering a node in the name-to-node map (as `main` does
with `g_gnbMap[name] = gnb`) always succeeds; under a name that is already
present it replaces the node stored under that name, and the entries of all
other names stay as they were; registering two nodes under distinct names
succeeds for both and each name then looks up its own node. -/
theorem registerNode_lookup (m : GnbMap) (cfg1 cfg2 : GnbConfig) (gnb1 gnb2 : GNodeB) :
    (registerNode m cfg1 gnb1).find cfg1.name = some gnb1
    ∧ (registerNode (registerNode m cfg1 gnb1) cfg1 gnb2).find cfg1.name = some gnb2
    ∧ (∀ other, other ≠ cfg1.name → (registerNode m cfg1 gnb1).find other = m.find other)
    ∧ (cfg1.name ≠ cfg2.name →
        (registerNode (registerNode m cfg1 gnb1) cfg2 gnb2).find cfg1.name = some gnb1
        ∧ (registerNode (registerNode m cfg1 gnb1) cfg2 gnb2).find cfg2.name = some gnb2) := by
  refine ⟨find_assign_self _ _ _, find_assign_self _ _ _,
    fun other h => find_assign_other m _ other gnb1 h, fun hne => ⟨?_, find_assign_self _ _ _⟩⟩
  unfold registerNode
  rw [find_assign_other _ _ _ gnb2 hne]
  exact find_assign_self _ _ _

/-- Witness of C18 (amended): two nodes registered under two distinct names. -/
theorem registerNode_lookup_witness :
    (registerNode (registerNode []
          (sampleConfig 208 93 false (lit "UERANSIM-gnb-208-93-1") [] []) 1)
        (sampleConfig 208 93 false (lit "UERANSIM-gnb-208-93-2") [] []) 2).find
        (lit "UERANSIM-gnb-208-93-1") = some 1
    ∧ (registerNode (registerNode []
          (sampleConfig 208 93 false (lit "UERANSIM-gnb-208-93-1") [] []) 1)
        (sampleConfig 208 93 false (lit "UERANSIM-gnb-208-93-2") [] []) 2).find
        (lit "UERANSIM-gnb-208-93-2") = some 2 :=
  (registerNode_lookup [] (sampleConfig 208 93 false (lit "UERANSIM-gnb-208-93-1") [] [])
    (sampleConfig 208 93 false (lit "UERANSIM-gnb-208-93-2") [] []) 1 2).2.2.2 (by decide)

/-! ## Reading the configuration: auxiliary facts -/

theorem except_bind_eq_ok {ε α β : Type} (x : Except ε α) (f : α → Except ε β) (b : β) :
    (x >>= f) = Except.ok b ↔ ∃ a, x = Except.ok a ∧ f a = Except.ok b := by
  cases x with
  | error e => simp [bind, Except.bind]
  | ok a => simp [bind, Except.bind]

/-- What a successful run of `ReadConfigYaml` went through, step by step. -/
theorem ReadConfigYaml_ok_inv (env : ConfigEnv) (config : YamlNode) (cfg : GnbConfig)
    (h : ReadConfigYaml env config = Except.ok cfg) :
    ∃ mcc mccText mnc mncText nci gnbIdLength tac portalIp ngapIp gtpIp ignoreStreamIds
        amfItems amfConfigs sliceItems nssais,
      yaml.GetInt32 env config (lit "mcc") 1 999 = Except.ok mcc
      ∧ yaml.GetString config (lit "mcc") 3 3 = Except.ok mccText
      ∧ yaml.GetInt32 env config (lit "mnc") 0 999 = Except.ok mnc
      ∧ yaml.GetString config (lit "mnc") 2 3 = Except.ok mncText
      ∧ yaml.GetInt64 env config (lit "nci") 0 0xFFFFFFFFF = Except.ok nci
      ∧ yaml.GetInt32 env config (lit "idLength") 22 32 = Except.ok gnbIdLength
      ∧ yaml.GetInt32 env config (lit "tac") 0 0xFFFFFF = Except.ok tac
      ∧ yaml.GetIp4 env config (lit "linkIp") = Except.ok portalIp
      ∧ yaml.GetIp4 env config (lit "ngapIp") = Except.ok ngapIp
      ∧ yaml.GetIp4 env config (lit "gtpIp") = Except.ok gtpIp
      ∧ yaml.GetBool env config (lit "ignoreStreamIds") = Except.ok ignoreStreamIds
      ∧ yaml.GetSequence config (lit "amfConfigs") = Except.ok amfItems
      ∧ readEach (readAmfConfig env) amfItems = Except.ok amfConfigs
      ∧ yaml.GetSequence config (lit "slices") = Except.ok sliceItems
      ∧ readEach (readSlice env) sliceItems = Except.ok nssais
      ∧ cfg = { plmn := { mcc := mcc, mnc := mnc, isLongMnc := decide (mncText.length = 3) },
                nci := nci, gnbIdLength := gnbIdLength, tac := tac, portalIp := portalIp,
                ngapIp := ngapIp, gtpIp := gtpIp, ignoreStreamIds := ignoreStreamIds,
                pagingDrx := EPagingDrx.V128,
                name := gnbName mcc mnc (env.getGnbId
                  { plmn := { mcc := mcc, mnc := mnc, isLongMnc := decide (mncText.length = 3) },
                    nci := nci, gnbIdLength := gnbIdLength, tac := tac, portalIp := portalIp,
                    ngapIp := ngapIp, gtpIp := gtpIp, ignoreStreamIds := ignoreStreamIds,
                    pagingDrx := EPagingDrx.V128, name := [], amfConfigs := [], nssais := [] }),
                amfConfigs := amfConfigs, nssais := nssais } := by
  simp only [ReadConfigYaml, except_bind_eq_ok, pure, Except.pure, Except.ok.injEq] at h
  obtain ⟨mcc, h1, mccText, h2, mnc, h3, mncText, h4, nci, h5, idl, h6, tac, h7, p, h8, n, h9,
    g, h10, ign, h11, amfItems, h12, amfs, h13, sliceItems, h14, slices, h15, hc⟩ := h
  exact ⟨mcc, mccText, mnc, mncText, nci, idl, tac, p, n, g, ign, amfItems, amfs, sliceItems,
    slices, h1, h2, h3, h4, h5, h6, h7, h8, h9, h10, h11, h12, h13, h14, h15, hc.symm⟩

theorem GetInteger_congr (env : ConfigEnv) (width : Nat) (node node2 : YamlNode)
    (name : CppString) (lo hi : Int) (h : node2.get name = node.get name) :
    yaml.GetInteger env width node2 name lo hi = yaml.GetInteger env width node name lo hi := by
  simp only [yaml.GetInteger, h]

theorem GetString_congr (node node2 : YamlNode) (name : CppString) (lo hi : Nat)
    (h : node2.get name = node.get name) :
    yaml.GetString node2 name lo hi = yaml.GetString node name lo hi := by
  simp only [yaml.GetString, h]

theorem GetIp4_congr (env : ConfigEnv) (node node2 : YamlNode) (name : CppString)
    (h : node2.get name = node.get name) :
    yaml.GetIp4 env node2 name = yaml.GetIp4 env node name := by
  simp only [yaml.GetIp4, h]

theorem GetBool_congr (env : ConfigEnv) (node node2 : YamlNode) (name : CppString)
    (h : node2.get name = node.get name) :
    yaml.GetBool env node2 name = yaml.GetBool env node name := by
  simp only [yaml.GetBool, h]

theorem GetSequence_congr (node node2 : YamlNode) (name : CppString)
    (h : node2.get name = node.get name) :
    yaml.GetSequence node2 name = yaml.GetSequence node name := by
  simp only [yaml.GetSequence, h]

/-- Every error of an integer reader names the key it was asked for. -/
theorem GetInteger_error_name (env : ConfigEnv) (width : Nat) (node : YamlNode)
    (name : CppString) (lo hi : Int) (e : FieldError)
    (h : yaml.GetInteger env width node name lo hi = Except.error e) : e.name = name := by
  unfold yaml.GetInteger at h
  split at h
  · cases h; rfl
  · split at h
    · cases h; rfl
    · split_ifs at h <;> cases h <;> rfl
  · cases h; rfl

/-- An integer outside the declared range is refused, naming the key. -/
theorem GetInteger_out_of_range (env : ConfigEnv) (width : Nat) (node : YamlNode)
    (name text : CppString) (lo hi v : Int)
    (hg : node.get name = some (YamlNode.Scalar text)) (hv : env.asInteger text = some v)
    (hr : v < lo ∨ hi < v) :
    ∃ why, yaml.GetInteger env width node name lo hi
      = Except.error { name := name, why := why } := by
  simp only [yaml.GetInteger, hg, hv]
  split_ifs
  · exact ⟨_, rfl⟩
  · exact ⟨_, rfl⟩
  · exact ⟨_, rfl⟩
  · omega

/-- An accepted integer is the conversion of the scalar under the key and lies
in the declared range. -/
theorem GetInteger_ok_inv (env : ConfigEnv) (width : Nat) (node : YamlNode)
    (name : CppString) (lo hi v : Int)
    (h : yaml.GetInteger env width node name lo hi = Except.ok v) :
    ∃ text, node.get name = some (YamlNode.Scalar text) ∧ env.asInteger text = some v
      ∧ lo ≤ v ∧ v ≤ hi := by
  unfold yaml.GetInteger at h
  split at h
  · cases h
  · rename_i text hg
    split at h
    · cases h
    · rename_i value hv
      split_ifs at h with h1 h2 h3
      cases h
      exact ⟨text, hg, hv, by omega, by omega⟩
  · cases h

/-- An integer of the declared range (which fits the width) is accepted. -/
theorem GetInteger_ok (env : ConfigEnv) (width : Nat) (node : YamlNode)
    (name text : CppString) (lo hi v : Int)
    (hg : node.get name = some (YamlNode.Scalar text)) (hv : env.asInteger text = some v)
    (hw : -(2 ^ (width - 1)) ≤ v ∧ v < 2 ^ (width - 1)) (hlo : lo ≤ v) (hhi : v ≤ hi) :
    yaml.GetInteger env width node name lo hi = Except.ok v := by
  simp only [yaml.GetInteger, hg, hv]
  rw [if_neg (by omega), if_neg (by omega), if_neg (by omega)]

theorem GetString_ok_inv (node : YamlNode) (name text : CppString) (lo hi : Nat)
    (h : yaml.GetString node name lo hi = Except.ok text) :
    node.get name = some (YamlNode.Scalar text) ∧ lo ≤ text.length ∧ text.length ≤ hi := by
  unfold yaml.GetString at h
  split at h
  · rename_i t hg
    split_ifs at h with h1 h2
    cases h
    exact ⟨hg, by omega, by omega⟩
  · cases h

theorem GetString_bad_length (node : YamlNode) (name text : CppString) (lo hi : Nat)
    (hg : node.get name = some (YamlNode.Scalar text))
    (hl : text.length < lo ∨ hi < text.length) :
    ∃ why, yaml.GetString node name lo hi = Except.error { name := name, why := why } := by
  simp only [yaml.GetString, hg]
  split_ifs
  · exact ⟨_, rfl⟩
  · exact ⟨_, rfl⟩
  · omega

/-- C17: for every document `ReadConfigYaml` accepts, the key `mnc` holds a
scalar whose text the integer conversion read as the resulting `mnc`, and the
resulting `isLongMnc` is true if and only if that text is 3 characters long. -/
theorem ReadConfigYaml_isLongMnc (env : ConfigEnv) (config : YamlNode) (cfg : GnbConfig)
    (h : ReadConfigYaml env config = Except.ok cfg) :
    ∃ mncText, config.get (lit "mnc") = some (YamlNode.Scalar mncText)
      ∧ env.asInteger mncText = some cfg.plmn.mnc
      ∧ (cfg.plmn.isLongMnc = true ↔ mncText.length = 3) := by
  obtain ⟨mcc, mccText, mnc, mncText, nci, idl, tac, p, n, g, ign, amfItems, amfs, sliceItems,
    slices, _, _, h3, h4, _, _, _, _, _, _, _, _, _, _, _, hc⟩ := ReadConfigYaml_ok_inv env config cfg h
  obtain ⟨hg, _, _⟩ := GetString_ok_inv config (lit "mnc") mncText 2 3 h4
  obtain ⟨t, hg2, hv, _, _⟩ := GetInteger_ok_inv env 32 config (lit "mnc") 0 999 mnc h3
  rw [hg] at hg2
  cases hg2
  subst hc
  exact ⟨mncText, hg, hv, by simp⟩

/-- Witness of C17: `mnc` written as `01` gives `isLongMnc = false`, written as
`001` it gives `isLongMnc = true`; both are read as the integer 1. -/
theorem ReadConfigYaml_isLongMnc_witness :
    (∃ mncText, (configDocument "208" "01" "16" "32" "1" [] []).get (lit "mnc")
          = some (YamlNode.Scalar mncText)
        ∧ sampleEnv.asInteger mncText = some 1
        ∧ ((sampleConfig 208 1 false (lit "UERANSIM-gnb-208-1-1") [] []).plmn.isLongMnc = true
            ↔ mncText.length = 3))
    ∧ (∃ mncText, (configDocument "208" "001" "16" "32" "1" [] []).get (lit "mnc")
          = some (YamlNode.Scalar mncText)
        ∧ sampleEnv.asInteger mncText = some 1
        ∧ ((sampleConfig 208 1 true (lit "UERANSIM-gnb-208-1-1") [] []).plmn.isLongMnc = true
            ↔ mncText.length = 3)) :=
  ⟨ReadConfigYaml_isLongMnc sampleEnv (configDocument "208" "01" "16" "32" "1" [] [])
      (sampleConfig 208 1 false (lit "UERANSIM-gnb-208-1-1") [] []) rfl,
   ReadConfigYaml_isLongMnc sampleEnv (configDocument "208" "001" "16" "32" "1" [] [])
      (sampleConfig 208 1 true (lit "UERANSIM-gnb-208-1-1") [] []) rfl⟩

/-- C20: `ReadConfigYaml` fails, with an error naming `mcc`, for every document
whose `mcc` text is not exactly 3 characters long, and it fails, with an error
naming `mcc` or `mnc`, for every document whose `mnc` text is neither 2 nor 3
characters long; the integer the text stands for plays no part. -/
theorem ReadConfigYaml_text_length (env : ConfigEnv) (config : YamlNode) (text : CppString) :
    (config.get (lit "mcc") = some (YamlNode.Scalar text) → text.length ≠ 3 →
      ∃ why, ReadConfigYaml env config = Except.error { name := lit "mcc", why := why })
    ∧ (config.get (lit "mnc") = some (YamlNode.Scalar text) →
        text.length ≠ 2 → text.length ≠ 3 →
      ∃ e, ReadConfigYaml env config = Except.error e
        ∧ (e.name = lit "mcc" ∨ e.name = lit "mnc")) := by
  constructor
  · intro hg hl
    cases h1 : yaml.GetInt32 env config (lit "mcc") 1 999 with
    | error e =>
      have hn := GetInteger_error_name env 32 config (lit "mcc") 1 999 e h1
      refine ⟨e.why, ?_⟩
      unfold ReadConfigYaml
      rw [h1, ← hn]
      rfl
    | ok mcc =>
      obtain ⟨why, h2⟩ := GetString_bad_length config (lit "mcc") text 3 3 hg (by omega)
      refine ⟨why, ?_⟩
      unfold ReadConfigYaml
      rw [h1, h2]
      rfl
  · intro hg hl2 hl3
    cases h1 : yaml.GetInt32 env config (lit "mcc") 1 999 with
    | error e =>
      refine ⟨e, ?_, Or.inl (GetInteger_error_name env 32 config (lit "mcc") 1 999 e h1)⟩
      unfold ReadConfigYaml
      rw [h1]
      rfl
    | ok mcc =>
    cases h2 : yaml.GetString config (lit "mcc") 3 3 with
    | error e =>
      refine ⟨e, ?_, Or.inl ?_⟩
      · unfold ReadConfigYaml
        rw [h1, h2]
        rfl
      · unfold yaml.GetString at h2
        split at h2
        · split_ifs at h2 <;> cases h2 <;> rfl
        · cases h2; rfl
    | ok mccText =>
    cases h3 : yaml.GetInt32 env config (lit "mnc") 0 999 with
    | error e =>
      refine ⟨e, ?_, Or.inr (GetInteger_error_name env 32 config (lit "mnc") 0 999 e h3)⟩
      unfold ReadConfigYaml
      rw [h1, h2, h3]
      rfl
    | ok mnc =>
      obtain ⟨why, h4⟩ := GetString_bad_length config (lit "mnc") text 2 3 hg (by omega)
      refine ⟨{ name := lit "mnc", why := why }, ?_, Or.inr rfl⟩
      unfold ReadConfigYaml
      rw [h1, h2, h3, h4]
      rfl

/-- Witness of C20: `mcc` written as `1` and as `01`, and `mnc` written as `5`;
the three texts stand for integers inside the declared ranges. -/
theorem ReadConfigYaml_text_length_witness :
    (sampleEnv.asInteger (lit "1") = some 1
      ∧ ∃ why, ReadConfigYaml sampleEnv (configDocument "1" "93" "16" "32" "1" [] [])
        = Except.error { name := lit "mcc", why := why })
    ∧ (sampleEnv.asInteger (lit "01") = some 1
      ∧ ∃ why, ReadConfigYaml sampleEnv (configDocument "01" "93" "16" "32" "1" [] [])
        = Except.error { name := lit "mcc", why := why })
    ∧ (sampleEnv.asInteger (lit "5") = some 5
      ∧ ∃ e, ReadConfigYaml sampleEnv (configDocument "208" "5" "16" "32" "1" [] [])
          = Except.error e
        ∧ (e.name = lit "mcc" ∨ e.name = lit "mnc")) :=
  ⟨⟨by decide, (ReadConfigYaml_text_length sampleEnv
      (configDocument "1" "93" "16" "32" "1" [] []) (lit "1")).1 rfl (by decide)⟩,
   ⟨by decide, (ReadConfigYaml_text_length sampleEnv
      (configDocument "01" "93" "16" "32" "1" [] []) (lit "01")).1 rfl (by decide)⟩,
   ⟨by decide, (ReadConfigYaml_text_length sampleEnv
      (configDocument "208" "5" "16" "32" "1" [] []) (lit "5")).2 rfl (by decide) (by decide)⟩⟩

/-! ## The name of the node: auxiliary facts -/

theorem decimalDigits_lt (fuel : Nat) : ∀ n d, d ∈ decimalDigits fuel n → d < 10 := by
  induction fuel with
  | zero => intro n d h; simp [decimalDigits] at h
  | succ fuel ih =>
    intro n d h
    unfold decimalDigits at h
    split_ifs at h with hn
    · rw [List.mem_singleton] at h
      omega
    · rcases List.mem_cons.mp h with h | h
      · omega
      · exact ih _ _ h

/-- With enough fuel the digits of `n` add up to `n`. -/
theorem decimalDigits_ofDigits (fuel : Nat) :
    ∀ n, n < fuel → Nat.ofDigits 10 (decimalDigits fuel n) = n := by
  induction fuel with
  | zero => intro n h; omega
  | succ fuel ih =>
    intro n h
    unfold decimalDigits
    split_ifs with hn
    · simp [Nat.ofDigits]
    · rw [Nat.ofDigits_cons, ih (n / 10) (by omega)]
      show n % 10 + 10 * (n / 10) = n
      omega

theorem digitByte_val (d : Nat) (h : d < 10) : (digitByte d).val = 48 + d := by
  simp only [digitByte, Fin.ofNat, Nat.reduceAdd]
  omega

theorem digitByte_inj (d e : Nat) (hd : d < 10) (he : e < 10)
    (h : digitByte d = digitByte e) : d = e := by
  have hv := congrArg Fin.val h
  rw [digitByte_val d hd, digitByte_val e he] at hv
  omega

theorem map_digitByte_inj : ∀ (l m : List Nat), (∀ d ∈ l, d < 10) → (∀ d ∈ m, d < 10) →
    l.map digitByte = m.map digitByte → l = m := by
  intro l
  induction l with
  | nil =>
    intro m _ _ h
    cases m with
    | nil => rfl
    | cons y ys => simp at h
  | cons x xs ih =>
    intro m hl hm h
    cases m with
    | nil => simp at h
    | cons y ys =>
      simp only [List.map_cons, List.cons.injEq] at h
      have hx := digitByte_inj x y (hl x (List.mem_cons_self _ _)) (hm y (List.mem_cons_self _ _)) h.1
      have hxs := ih ys (fun d hd => hl d (List.mem_cons_of_mem _ hd))
        (fun d hd => hm d (List.mem_cons_of_mem _ hd)) h.2
      rw [hx, hxs]

/-- Two numbers with the same decimal representation are equal. -/
theorem decimal_injective (n m : Nat) (h : decimal n = decimal m) : n = m := by
  unfold decimal at h
  have hrev := map_digitByte_inj _ _
    (fun d hd => decimalDigits_lt (n + 1) n d (List.mem_reverse.mp hd))
    (fun d hd => decimalDigits_lt (m + 1) m d (List.mem_reverse.mp hd)) h
  have hds := List.reverse_injective hrev
  have hn := decimalDigits_ofDigits (n + 1) n (by omega)
  have hm := decimalDigits_ofDigits (m + 1) m (by omega)
  rw [hds, hm] at hn
  exact hn.symm

/-- The decimal representation consists of digits only. -/
theorem decimal_bytes (n : Nat) (b : Byte) (h : b ∈ decimal n) : isDigitByte b = true := by
  unfold decimal at h
  obtain ⟨d, hd, rfl⟩ := List.mem_map.mp h
  have hlt := decimalDigits_lt (n + 1) n d (List.mem_reverse.mp hd)
  have hv := digitByte_val d hlt
  simp only [isDigitByte, Bool.and_eq_true, decide_eq_true_eq]
  omega

theorem isDigitByte_ne_dash (b : Byte) (h : isDigitByte b = true) : b ≠ 45 := by
  intro hb
  subst hb
  exact absurd h (by decide)

theorem isDigitByte_ne_slash (b : Byte) (h : isDigitByte b = true) : b ≠ 47 := by
  intro hb
  subst hb
  exact absurd h (by decide)

theorem to_string_nonneg (v : Int) (h : 0 ≤ v) : to_string v = decimal v.natAbs := by
  unfold to_string
  rw [if_neg (by omega)]

theorem to_string_bytes (v : Int) (b : Byte) (h : b ∈ to_string v) :
    isDigitByte b = true ∨ b = 45 := by
  unfold to_string at h
  split_ifs at h
  · rcases List.mem_cons.mp h with h | h
    · exact Or.inr h
    · exact Or.inl (decimal_bytes _ b h)
  · exact Or.inl (decimal_bytes _ b h)

/-- A string is split in one way only at the first dash. -/
theorem append_dash_inj : ∀ (a c b d : CppString), (45 : Byte) ∉ a → (45 : Byte) ∉ c →
    a ++ 45 :: b = c ++ 45 :: d → a = c ∧ b = d := by
  intro a
  induction a with
  | nil =>
    intro c b d _ hc h
    cases c with
    | nil => simpa using h
    | cons y ys =>
      simp only [List.nil_append, List.cons_append, List.cons.injEq] at h
      exact absurd (List.mem_cons_self _ _) (h.1 ▸ hc)
  | cons x xs ih =>
    intro c b d ha hc h
    cases c with
    | nil =>
      simp only [List.nil_append, List.cons_append, List.cons.injEq] at h
      exact absurd (List.mem_cons_self _ _) (h.1 ▸ ha)
    | cons y ys =>
      simp only [List.cons_append, List.cons.injEq] at h
      obtain ⟨h1, h2⟩ := ih ys b d (fun hm => ha (List.mem_cons_of_mem _ hm))
        (fun hm => hc (List.mem_cons_of_mem _ hm)) h.2
      exact ⟨by rw [h.1, h1], h2⟩

theorem gnbName_eq (mcc mnc : Int) (gnbId : Nat) :
    gnbName mcc mnc gnbId
      = lit "UERANSIM-gnb-"
        ++ (to_string mcc ++ 45 :: (to_string mnc ++ 45 :: to_string (gnbId : Int))) := by
  simp only [gnbName, List.append_assoc]
  rfl

theorem decimal_no_dash (n : Nat) : (45 : Byte) ∉ decimal n :=
  fun h => isDigitByte_ne_dash 45 (decimal_bytes n 45 h) rfl

theorem gnbName_rest_bytes (mcc mnc : Int) (gnbId : Nat) (b : Byte)
    (h : b ∈ to_string mcc ++ 45 :: (to_string mnc ++ 45 :: to_string (gnbId : Int))) :
    isDigitByte b = true ∨ b = 45 := by
  simp only [List.mem_append, List.mem_cons] at h
  rcases h with h | h | h | h | h
  · exact to_string_bytes _ b h
  · exact Or.inr h
  · exact to_string_bytes _ b h
  · exact Or.inr h
  · exact to_string_bytes _ b h

theorem gnbName_injective (mcc mcc2 mnc mnc2 : Int) (gnbId gnbId2 : Nat)
    (h1 : 0 ≤ mcc) (h2 : 0 ≤ mcc2) (h3 : 0 ≤ mnc) (h4 : 0 ≤ mnc2)
    (h : gnbName mcc mnc gnbId = gnbName mcc2 mnc2 gnbId2) :
    mcc = mcc2 ∧ mnc = mnc2 ∧ gnbId = gnbId2 := by
  rw [gnbName_eq, gnbName_eq, to_string_nonneg mcc h1, to_string_nonneg mcc2 h2,
    to_string_nonneg mnc h3, to_string_nonneg mnc2 h4,
    to_string_nonneg (gnbId : Int) (by omega), to_string_nonneg (gnbId2 : Int) (by omega)] at h
  have hrest := List.append_cancel_left h
  obtain ⟨ha, hb⟩ := append_dash_inj _ _ _ _ (decimal_no_dash _) (decimal_no_dash _) hrest
  obtain ⟨hc, hd⟩ := append_dash_inj _ _ _ _ (decimal_no_dash _) (decimal_no_dash _) hb
  have e1 := decimal_injective _ _ ha
  have e2 := decimal_injective _ _ hc
  have e3 := decimal_injective _ _ hd
  simp only [Int.natAbs_ofNat] at e3
  omega

/-- C15: the name `ReadConfigYaml` computes is `gnbName` of the resulting `mcc`
(in 1..999), the resulting `mnc` (in 0..999) and the value of `getGnbId()`;
`gnbName` is "UERANSIM-gnb-" + decimal(mcc) + "-" + decimal(mnc) + "-" +
decimal(gnbId); and for `mcc`, `mcc2` in 1..999, `mnc`, `mnc2` in 0..999 and
non-negative `gnbId`, `gnbId2` two such names are equal if and only if
`mcc = mcc2`, `mnc = mnc2` and `gnbId = gnbId2`. -/
theorem gnbName_function_and_injective (env : ConfigEnv) :
    (∀ (config : YamlNode) (cfg : GnbConfig), ReadConfigYaml env config = Except.ok cfg →
      1 ≤ cfg.plmn.mcc ∧ cfg.plmn.mcc ≤ 999 ∧ 0 ≤ cfg.plmn.mnc ∧ cfg.plmn.mnc ≤ 999
      ∧ cfg.name = gnbName cfg.plmn.mcc cfg.plmn.mnc
          (env.getGnbId { cfg with name := [], amfConfigs := [], nssais := [] }))
    ∧ (∀ (mcc mnc : Int) (gnbId : Nat), 0 ≤ mcc → 0 ≤ mnc →
      gnbName mcc mnc gnbId
        = lit "UERANSIM-gnb-" ++ decimal mcc.natAbs ++ lit "-" ++ decimal mnc.natAbs
            ++ lit "-" ++ decimal gnbId)
    ∧ (∀ (mcc mcc2 mnc mnc2 : Int) (gnbId gnbId2 : Nat),
      1 ≤ mcc → mcc ≤ 999 → 1 ≤ mcc2 → mcc2 ≤ 999 →
      0 ≤ mnc → mnc ≤ 999 → 0 ≤ mnc2 → mnc2 ≤ 999 →
      (gnbName mcc mnc gnbId = gnbName mcc2 mnc2 gnbId2
        ↔ mcc = mcc2 ∧ mnc = mnc2 ∧ gnbId = gnbId2)) := by
  refine ⟨?_, ?_, ?_⟩
  · intro config cfg h
    obtain ⟨mcc, mccText, mnc, mncText, nci, idl, tac, p, n, g, ign, amfItems, amfs, sliceItems,
      slices, h1, _, h3, _, _, _, _, _, _, _, _, _, _, _, _, hc⟩ :=
      ReadConfigYaml_ok_inv env config cfg h
    obtain ⟨_, _, _, l1, u1⟩ := GetInteger_ok_inv env 32 config (lit "mcc") 1 999 mcc h1
    obtain ⟨_, _, _, l3, u3⟩ := GetInteger_ok_inv env 32 config (lit "mnc") 0 999 mnc h3
    subst hc
    exact ⟨l1, u1, l3, u3, rfl⟩
  · intro mcc mnc gnbId h1 h2
    unfold gnbName
    rw [to_string_nonneg mcc h1, to_string_nonneg mnc h2,
      to_string_nonneg (gnbId : Int) (by omega), Int.natAbs_ofNat]
  · intro mcc mcc2 mnc mnc2 gnbId gnbId2 h1 _ h2 _ h3 _ h4 _
    constructor
    · exact gnbName_injective mcc mcc2 mnc mnc2 gnbId gnbId2 (by omega) (by omega) h3 h4
    · rintro ⟨rfl, rfl, rfl⟩
      rfl

/-- Witness of C15: the sample document, and the identities (1, 1, 11) and
(1, 11, 1), whose names differ. -/
theorem gnbName_function_and_injective_witness :
    (sampleConfig 208 93 false (lit "UERANSIM-gnb-208-93-1")
        [{ address := lit "127.0.0.5", port := 38412 }]
        [{ sst := 1, sd := some 66051 }, { sst := 2, sd := none }]).name
      = gnbName 208 93 1
    ∧ gnbName 1 1 11 = lit "UERANSIM-gnb-1-1-11"
    ∧ (gnbName 1 1 11 = gnbName 1 11 1 ↔ (1 : Int) = 1 ∧ (1 : Int) = 11 ∧ 11 = 1) :=
  ⟨((gnbName_function_and_injective sampleEnv).1 sampleDocument
      (sampleConfig 208 93 false (lit "UERANSIM-gnb-208-93-1")
        [{ address := lit "127.0.0.5", port := 38412 }]
        [{ sst := 1, sd := some 66051 }, { sst := 2, sd := none }]) rfl).2.2.2.2,
   (gnbName_function_and_injective sampleEnv).2.1 1 1 11 (by decide) (by decide),
   (gnbName_function_and_injective sampleEnv).2.2 1 1 1 11 11 1 (by decide) (by decide)
      (by decide) (by decide) (by decide) (by decide) (by decide) (by decide)⟩

/-- C16: for every configuration `ReadConfigYaml` accepts, the computed name
does not contain the octet of `/` (47): it is "UERANSIM-gnb-" followed only by
decimal digits and `-` (45). -/
theorem ReadConfigYaml_name_no_separator (env : ConfigEnv) (config : YamlNode)
    (cfg : GnbConfig) (h : ReadConfigYaml env config = Except.ok cfg) :
    (47 : Byte) ∉ cfg.name
    ∧ ∃ rest, cfg.name = lit "UERANSIM-gnb-" ++ rest
        ∧ ∀ b ∈ rest, isDigitByte b = true ∨ b = 45 := by
  obtain ⟨mcc, mccText, mnc, mncText, nci, idl, tac, p, n, g, ign, amfItems, amfs, sliceItems,
    slices, _, _, _, _, _, _, _, _, _, _, _, _, _, _, _, hc⟩ :=
    ReadConfigYaml_ok_inv env config cfg h
  subst hc
  constructor
  · show (47 : Byte) ∉ gnbName _ _ _
    rw [gnbName_eq]
    intro hm
    rcases List.mem_append.mp hm with hm | hm
    · exact absurd hm (by decide)
    · rcases gnbName_rest_bytes _ _ _ _ hm with hd | hd
      · exact isDigitByte_ne_slash 47 hd rfl
      · exact absurd hd (by decide)
  · exact ⟨_, gnbName_eq _ _ _, fun b hb => gnbName_rest_bytes _ _ _ b hb⟩

/-- Witness of C16: the name computed for the sample document. -/
theorem ReadConfigYaml_name_no_separator_witness :
    (47 : Byte) ∉ lit "UERANSIM-gnb-208-93-1"
    ∧ ∃ rest, lit "UERANSIM-gnb-208-93-1" = lit "UERANSIM-gnb-" ++ rest
        ∧ ∀ b ∈ rest, isDigitByte b = true ∨ b = 45 :=
  ReadConfigYaml_name_no_separator sampleEnv sampleDocument
    (sampleConfig 208 93 false (lit "UERANSIM-gnb-208-93-1")
      [{ address := lit "127.0.0.5", port := 38412 }]
      [{ sst := 1, sd := some 66051 }, { sst := 2, sd := none }]) rfl

/-! ## Sequences of the configuration: auxiliary facts -/

theorem GetSequence_ok_inv (node : YamlNode) (name : CppString) (items : List YamlNode)
    (h : yaml.GetSequence node name = Except.ok items) :
    node.get name = some (YamlNode.Sequence items) := by
  unfold yaml.GetSequence at h
  split at h
  · cases h
  · rename_i its hg
    cases h
    exact hg
  · cases h

theorem GetSequence_ok (node : YamlNode) (name : CppString) (items : List YamlNode)
    (h : node.get name = some (YamlNode.Sequence items)) :
    yaml.GetSequence node name = Except.ok items := by
  simp only [yaml.GetSequence, h]

/-- The loop succeeds exactly when every item is accepted, and then returns the
results in document order. -/
theorem readEach_ok_iff {α : Type} (body : YamlNode → Except FieldError α) :
    ∀ (items : List YamlNode) (xs : List α),
      readEach body items = Except.ok xs
        ↔ List.Forall₂ (fun item x => body item = Except.ok x) items xs := by
  intro items
  induction items with
  | nil =>
    intro xs
    simp only [readEach, Except.ok.injEq, List.forall₂_nil_left_iff]
    exact eq_comm
  | cons item rest ih =>
    intro xs
    simp only [readEach]
    cases hb : body item with
    | error e =>
      simp only [List.forall₂_cons_left_iff, hb]
      constructor
      · intro h; cases h
      · rintro ⟨b, l, hc, _, _⟩; cases hc
    | ok a =>
      cases hr : readEach body rest with
      | error e =>
        simp only [List.forall₂_cons_left_iff]
        constructor
        · intro h; cases h
        · rintro ⟨b, l, _, hl, _⟩
          rw [← ih l, hr] at hl
          cases hl
      | ok ys =>
        simp only [List.forall₂_cons_left_iff, Except.ok.injEq]
        constructor
        · rintro rfl
          exact ⟨a, ys, hb, (ih ys).mp hr, rfl⟩
        · rintro ⟨b, l, hab, hl, rfl⟩
          rw [hb] at hab
          cases hab
          rw [← ih l, hr] at hl
          cases hl
          rfl

/-- The loop fails as soon as one item is refused. -/
theorem readEach_error_of_mem {α : Type} (body : YamlNode → Except FieldError α) :
    ∀ (items : List YamlNode) (item : YamlNode) (e : FieldError),
      item ∈ items → body item = Except.error e →
      ∃ e2, readEach body items = Except.error e2 := by
  intro items
  induction items with
  | nil => intro item e h; simp at h
  | cons x rest ih =>
    intro item e hm hb
    simp only [readEach]
    cases hx : body x with
    | error e1 => exact ⟨e1, rfl⟩
    | ok a =>
      rcases List.mem_cons.mp hm with rfl | hm
      · rw [hb] at hx; cases hx
      · obtain ⟨e2, h2⟩ := ih item e hm hb
        rw [h2]
        exact ⟨e2, rfl⟩

/-- The loop reports the error of the first item that is refused. -/
theorem readEach_append_error {α : Type} (body : YamlNode → Except FieldError α) :
    ∀ (pre : List YamlNode) (xs : List α) (item : YamlNode) (post : List YamlNode)
      (e : FieldError),
      readEach body pre = Except.ok xs → body item = Except.error e →
      readEach body (pre ++ item :: post) = Except.error e := by
  intro pre
  induction pre with
  | nil =>
    intro xs item post e _ hb
    simp only [List.nil_append, readEach, hb]
  | cons x rest ih =>
    intro xs item post e hp hb
    rw [List.cons_append]
    simp only [readEach] at hp ⊢
    cases hx : body x with
    | error e1 => rw [hx] at hp; cases hp
    | ok a =>
      rw [hx] at hp
      cases hr : readEach body rest with
      | error e1 => rw [hr] at hp; cases hp
      | ok ys => rw [ih ys item post e hr hb]

/-- When the loop succeeds on a list it succeeds on every initial part of it. -/
theorem readEach_append_ok_inv {α : Type} (body : YamlNode → Except FieldError α) :
    ∀ (pre post : List YamlNode) (zs : List α),
      readEach body (pre ++ post) = Except.ok zs →
      ∃ xs, readEach body pre = Except.ok xs := by
  intro pre
  induction pre with
  | nil => intro post zs _; exact ⟨[], rfl⟩
  | cons x rest ih =>
    intro post zs h
    rw [List.cons_append] at h
    simp only [readEach] at h ⊢
    cases hx : body x with
    | error e1 => rw [hx] at h; cases h
    | ok a =>
      rw [hx] at h
      cases hr : readEach body (rest ++ post) with
      | error e1 => rw [hr] at h; cases h
      | ok ys =>
        obtain ⟨xs, hxs⟩ := ih post ys hr
        rw [hxs]
        exact ⟨a :: xs, rfl⟩

theorem readSlice_no_sd (env : ConfigEnv) (nssai : YamlNode) (sst : Int)
    (hs : yaml.GetInt32 env nssai (lit "sst") 1 0xFF = Except.ok sst)
    (hg : nssai.get (lit "sd") = none) :
    readSlice env nssai = Except.ok { sst := sst, sd := none } := by
  simp only [readSlice, hs, yaml.HasField, hg]
  rfl

theorem readSlice_sd_in_range (env : ConfigEnv) (nssai : YamlNode) (sst : Int)
    (text : CppString) (d : Int)
    (hs : yaml.GetInt32 env nssai (lit "sst") 1 0xFF = Except.ok sst)
    (hg : nssai.get (lit "sd") = some (YamlNode.Scalar text))
    (hd : env.asInteger text = some d) (h1 : 1 ≤ d) (h2 : d ≤ 0xFFFFFF) :
    readSlice env nssai = Except.ok { sst := sst, sd := some d.toNat } := by
  have hsd : yaml.GetInt32 env nssai (lit "sd") 1 0xFFFFFF = Except.ok d :=
    GetInteger_ok env 32 nssai (lit "sd") text 1 0xFFFFFF d hg hd
      (by norm_num; omega) h1 h2
  have hm : d % 16777216 = d := Int.emod_eq_of_lt (by omega) (by omega)
  simp only [readSlice, hs, yaml.HasField, hg, hsd]
  show (Except.ok { sst := sst, sd := some (d % 16777216).toNat } :
    Except FieldError SliceSupport) = Except.ok { sst := sst, sd := some d.toNat }
  rw [hm]

theorem readSlice_sd_out_of_range (env : ConfigEnv) (nssai : YamlNode) (sst : Int)
    (text : CppString) (d : Int)
    (hs : yaml.GetInt32 env nssai (lit "sst") 1 0xFF = Except.ok sst)
    (hg : nssai.get (lit "sd") = some (YamlNode.Scalar text))
    (hd : env.asInteger text = some d) (hr : d < 1 ∨ 0xFFFFFF < d) :
    ∃ why, readSlice env nssai = Except.error { name := lit "sd", why := why } := by
  obtain ⟨why, hsd⟩ := GetInteger_out_of_range env 32 nssai (lit "sd") text 1 0xFFFFFF d hg hd hr
  have hsd2 : yaml.GetInt32 env nssai (lit "sd") 1 0xFFFFFF
      = Except.error { name := lit "sd", why := why } := hsd
  refine ⟨why, ?_⟩
  simp only [readSlice, hs, yaml.HasField, hg, hsd2]
  rfl

/-- C14: for every `slices` entry with a valid `sst`: without the key `sd` the
entry is accepted and the slice has no `sd`; with an `sd` in 1..0xFFFFFF the
entry is accepted and the slice carries exactly that `sd`; with an `sd`
outside 1..0xFFFFFF the entry is refused with an error naming `sd`.  For a
whole document: when `ReadConfigYaml` accepts it, the resulting slices are the
results of its `slices` entries, in document order; when one of its `slices`
entries is refused, `ReadConfigYaml` fails. -/
theorem ReadConfigYaml_slice_sd (env : ConfigEnv) :
    (∀ (nssai : YamlNode) (sst : Int),
      yaml.GetInt32 env nssai (lit "sst") 1 0xFF = Except.ok sst →
      (nssai.get (lit "sd") = none →
        readSlice env nssai = Except.ok { sst := sst, sd := none })
      ∧ (∀ (text : CppString) (d : Int),
          nssai.get (lit "sd") = some (YamlNode.Scalar text) → env.asInteger text = some d →
          1 ≤ d → d ≤ 0xFFFFFF →
          ∃ n : Nat, (n : Int) = d
            ∧ readSlice env nssai = Except.ok { sst := sst, sd := some n })
      ∧ (∀ (text : CppString) (d : Int),
          nssai.get (lit "sd") = some (YamlNode.Scalar text) → env.asInteger text = some d →
          (d < 1 ∨ 0xFFFFFF < d) →
          ∃ why, readSlice env nssai = Except.error { name := lit "sd", why := why }))
    ∧ (∀ (config : YamlNode) (cfg : GnbConfig), ReadConfigYaml env config = Except.ok cfg →
      ∃ items, config.get (lit "slices") = some (YamlNode.Sequence items)
        ∧ List.Forall₂ (fun item s => readSlice env item = Except.ok s) items cfg.nssais)
    ∧ (∀ (config : YamlNode) (items : List YamlNode) (item : YamlNode) (e : FieldError),
      config.get (lit "slices") = some (YamlNode.Sequence items) → item ∈ items →
      readSlice env item = Except.error e →
      ∃ e2, ReadConfigYaml env config = Except.error e2) := by
  refine ⟨fun nssai sst hs => ⟨readSlice_no_sd env nssai sst hs, ?_, ?_⟩, ?_, ?_⟩
  · intro text d hg hd h1 h2
    exact ⟨d.toNat, Int.toNat_of_nonneg (by omega),
      readSlice_sd_in_range env nssai sst text d hs hg hd h1 h2⟩
  · intro text d hg hd hr
    exact readSlice_sd_out_of_range env nssai sst text d hs hg hd hr
  · intro config cfg h
    obtain ⟨mcc, mccText, mnc, mncText, nci, idl, tac, p, n, g, ign, amfItems, amfs, sliceItems,
      slices, _, _, _, _, _, _, _, _, _, _, _, _, _, h14, h15, hc⟩ :=
      ReadConfigYaml_ok_inv env config cfg h
    subst hc
    exact ⟨sliceItems, GetSequence_ok_inv _ _ _ h14, (readEach_ok_iff _ _ _).mp h15⟩
  · intro config items item e hg hm he
    cases hres : ReadConfigYaml env config with
    | error e2 => exact ⟨e2, rfl⟩
    | ok cfg =>
      obtain ⟨mcc, mccText, mnc, mncText, nci, idl, tac, p, n, g, ign, amfItems, amfs,
        sliceItems, slices, _, _, _, _, _, _, _, _, _, _, _, _, _, h14, h15, hc⟩ :=
        ReadConfigYaml_ok_inv env config cfg hres
      have hseq := GetSequence_ok_inv _ _ _ h14
      rw [hg] at hseq
      cases hseq
      obtain ⟨e3, h3⟩ := readEach_error_of_mem (readSlice env) items item e hm he
      rw [h3] at h15
      cases h15

/-- Witness of C14: an entry without `sd`, an entry with `sd: 66051`, an entry
with `sd: 0`, the sample document, and the sample document with `sd: 16777216`
in its only slice. -/
theorem ReadConfigYaml_slice_sd_witness :
    readSlice sampleEnv (sliceEntryNoSd "2") = Except.ok { sst := 2, sd := none }
    ∧ (∃ n : Nat, (n : Int) = 66051
        ∧ readSlice sampleEnv (sliceEntry "1" "66051") = Except.ok { sst := 1, sd := some n })
    ∧ (∃ why, readSlice sampleEnv (sliceEntry "1" "0")
        = Except.error { name := lit "sd", why := why })
    ∧ (∃ items, sampleDocument.get (lit "slices") = some (YamlNode.Sequence items)
        ∧ List.Forall₂ (fun item s => readSlice sampleEnv item = Except.ok s) items
            [{ sst := 1, sd := some 66051 }, { sst := 2, sd := none }])
    ∧ (∃ e2, ReadConfigYaml sampleEnv
          (configDocument "208" "93" "16" "32" "1" [amfEntry "127.0.0.5" "38412"]
            [sliceEntry "1" "16777216"]) = Except.error e2) :=
  ⟨((ReadConfigYaml_slice_sd sampleEnv).1 (sliceEntryNoSd "2") 2 rfl).1 rfl,
   ((ReadConfigYaml_slice_sd sampleEnv).1 (sliceEntry "1" "66051") 1 rfl).2.1
      (lit "66051") 66051 rfl rfl (by decide) (by decide),
   ((ReadConfigYaml_slice_sd sampleEnv).1 (sliceEntry "1" "0") 1 rfl).2.2
      (lit "0") 0 rfl rfl (Or.inl (by decide)),
   (ReadConfigYaml_slice_sd sampleEnv).2.1 sampleDocument
      (sampleConfig 208 93 false (lit "UERANSIM-gnb-208-93-1")
        [{ address := lit "127.0.0.5", port := 38412 }]
        [{ sst := 1, sd := some 66051 }, { sst := 2, sd := none }]) rfl,
   (ReadConfigYaml_slice_sd sampleEnv).2.2
      (configDocument "208" "93" "16" "32" "1" [amfEntry "127.0.0.5" "38412"]
        [sliceEntry "1" "16777216"])
      [sliceEntry "1" "16777216"] (sliceEntry "1" "16777216")
      { name := lit "sd", why := Violation.greaterThan 16777215 } rfl
      (List.mem_singleton.mpr rfl) rfl⟩

/-! ## Accepted documents: auxiliary facts -/

/-- When every step succeeds, `ReadConfigYaml` returns the configuration built
from the values read. -/
theorem ReadConfigYaml_ok_of_steps (env : ConfigEnv) (config : YamlNode)
    (mcc mnc nci gnbIdLength tac : Int) (mccText mncText portalIp ngapIp gtpIp : CppString)
    (ignoreStreamIds : Bool) (amfItems sliceItems : List YamlNode)
    (amfConfigs : List GnbAmfConfig) (nssais : List SliceSupport)
    (h1 : yaml.GetInt32 env config (lit "mcc") 1 999 = Except.ok mcc)
    (h2 : yaml.GetString config (lit "mcc") 3 3 = Except.ok mccText)
    (h3 : yaml.GetInt32 env config (lit "mnc") 0 999 = Except.ok mnc)
    (h4 : yaml.GetString config (lit "mnc") 2 3 = Except.ok mncText)
    (h5 : yaml.GetInt64 env config (lit "nci") 0 0xFFFFFFFFF = Except.ok nci)
    (h6 : yaml.GetInt32 env config (lit "idLength") 22 32 = Except.ok gnbIdLength)
    (h7 : yaml.GetInt32 env config (lit "tac") 0 0xFFFFFF = Except.ok tac)
    (h8 : yaml.GetIp4 env config (lit "linkIp") = Except.ok portalIp)
    (h9 : yaml.GetIp4 env config (lit "ngapIp") = Except.ok ngapIp)
    (h10 : yaml.GetIp4 env config (lit "gtpIp") = Except.ok gtpIp)
    (h11 : yaml.GetBool env config (lit "ignoreStreamIds") = Except.ok ignoreStreamIds)
    (h12 : yaml.GetSequence config (lit "amfConfigs") = Except.ok amfItems)
    (h13 : readEach (readAmfConfig env) amfItems = Except.ok amfConfigs)
    (h14 : yaml.GetSequence config (lit "slices") = Except.ok sliceItems)
    (h15 : readEach (readSlice env) sliceItems = Except.ok nssais) :
    ReadConfigYaml env config
      = Except.ok
          { plmn := { mcc := mcc, mnc := mnc, isLongMnc := decide (mncText.length = 3) },
            nci := nci, gnbIdLength := gnbIdLength, tac := tac, portalIp := portalIp,
            ngapIp := ngapIp, gtpIp := gtpIp, ignoreStreamIds := ignoreStreamIds,
            pagingDrx := EPagingDrx.V128,
            name := gnbName mcc mnc (env.getGnbId
              { plmn := { mcc := mcc, mnc := mnc, isLongMnc := decide (mncText.length = 3) },
                nci := nci, gnbIdLength := gnbIdLength, tac := tac, portalIp := portalIp,
                ngapIp := ngapIp, gtpIp := gtpIp, ignoreStreamIds := ignoreStreamIds,
                pagingDrx := EPagingDrx.V128, name := [], amfConfigs := [], nssais := [] }),
            amfConfigs := amfConfigs, nssais := nssais } := by
  simp only [ReadConfigYaml, except_bind_eq_ok, pure, Except.pure, Except.ok.injEq]
  exact ⟨mcc, h1, mccText, h2, mnc, h3, mncText, h4, nci, h5, gnbIdLength, h6, tac, h7,
    portalIp, h8, ngapIp, h9, gtpIp, h10, ignoreStreamIds, h11, amfItems, h12, amfConfigs, h13,
    sliceItems, h14, nssais, h15, rfl⟩

theorem GetString_ok (node : YamlNode) (name text : CppString) (lo hi : Nat)
    (hg : node.get name = some (YamlNode.Scalar text)) (h1 : lo ≤ text.length)
    (h2 : text.length ≤ hi) :
    yaml.GetString node name lo hi = Except.ok text := by
  simp only [yaml.GetString, hg]
  rw [if_neg (by omega), if_neg (by omega)]

theorem GetIp4_ok (env : ConfigEnv) (node : YamlNode) (name text : CppString)
    (hg : node.get name = some (YamlNode.Scalar text)) (h4 : env.GetIpVersion text = 4) :
    yaml.GetIp4 env node name = Except.ok text := by
  simp only [yaml.GetIp4, hg, h4, if_true]

theorem GetBool_ok (env : ConfigEnv) (node : YamlNode) (name text : CppString) (b : Bool)
    (hg : node.get name = some (YamlNode.Scalar text)) (hb : env.asBool text = some b) :
    yaml.GetBool env node name = Except.ok b := by
  simp only [yaml.GetBool, hg, hb]

theorem readAmfConfig_ok (env : ConfigEnv) (item : YamlNode) (address text : CppString)
    (port : Int)
    (ha : item.get (lit "address") = some (YamlNode.Scalar address))
    (h4 : env.GetIpVersion address = 4)
    (hp : item.get (lit "port") = some (YamlNode.Scalar text))
    (hv : env.asInteger text = some port) (h1 : 1024 ≤ port) (h2 : port ≤ 65535) :
    readAmfConfig env item = Except.ok { address := address, port := port.toNat } := by
  have e1 := GetIp4_ok env item (lit "address") address ha h4
  have e2 : yaml.GetInt32 env item (lit "port") 1024 65535 = Except.ok port :=
    GetInteger_ok env 32 item (lit "port") text 1024 65535 port hp hv
      (by norm_num; omega) h1 h2
  have hm : port % 65536 = port := Int.emod_eq_of_lt (by omega) (by omega)
  simp only [readAmfConfig, e1, e2]
  show (Except.ok { address := address, port := (port % 65536).toNat } :
    Except FieldError GnbAmfConfig) = Except.ok { address := address, port := port.toNat }
  rw [hm]

/-- Valid `amfConfigs` entries are all accepted, and the resulting entries hold
the addresses and ports of the document, in document order. -/
theorem readEach_amf_valid (env : ConfigEnv) (amfItems : List YamlNode)
    (amfs : List (CppString × Int))
    (h : List.Forall₂ (fun (item : YamlNode) (a : CppString × Int) =>
      item.get (lit "address") = some (YamlNode.Scalar a.1) ∧ env.GetIpVersion a.1 = 4
      ∧ ∃ t, item.get (lit "port") = some (YamlNode.Scalar t) ∧ env.asInteger t = some a.2
          ∧ 1024 ≤ a.2 ∧ a.2 ≤ 65535) amfItems amfs) :
    ∃ amfConfigs, readEach (readAmfConfig env) amfItems = Except.ok amfConfigs
      ∧ amfConfigs.map (fun c => (c.address, (c.port : Int))) = amfs := by
  induction h with
  | nil => exact ⟨[], rfl, rfl⟩
  | @cons item a items rest hd _ ih =>
    obtain ⟨ha, h4, t, hp, hv, h1, h2⟩ := hd
    obtain ⟨cs, hcs, hmap⟩ := ih
    have hx := readAmfConfig_ok env item a.1 t a.2 ha h4 hp hv h1 h2
    refine ⟨{ address := a.1, port := a.2.toNat } :: cs, ?_, ?_⟩
    · simp only [readEach, hx, hcs]
    · simp only [List.map_cons, hmap, Int.toNat_of_nonneg (show (0 : Int) ≤ a.2 by omega)]

/-- Valid `slices` entries are all accepted, and the resulting slices hold the
`sst` and the optional `sd` of the document, in document order. -/
theorem readEach_slices_valid (env : ConfigEnv) (sliceItems : List YamlNode)
    (slices : List (Int × Option Int))
    (h : List.Forall₂ (fun (item : YamlNode) (s : Int × Option Int) =>
      (∃ t, item.get (lit "sst") = some (YamlNode.Scalar t) ∧ env.asInteger t = some s.1
          ∧ 1 ≤ s.1 ∧ s.1 ≤ 255)
      ∧ (s.2 = none → item.get (lit "sd") = none)
      ∧ (∀ d, s.2 = some d → ∃ t, item.get (lit "sd") = some (YamlNode.Scalar t)
          ∧ env.asInteger t = some d ∧ 1 ≤ d ∧ d ≤ 0xFFFFFF)) sliceItems slices) :
    ∃ nssais, readEach (readSlice env) sliceItems = Except.ok nssais
      ∧ nssais.map (fun s => (s.sst, s.sd.map Int.ofNat)) = slices := by
  induction h with
  | nil => exact ⟨[], rfl, rfl⟩
  | @cons item s items rest hd _ ih =>
    obtain ⟨⟨t, hs, hv, h1, h2⟩, hnone, hsome⟩ := hd
    obtain ⟨xs, hxs, hmap⟩ := ih
    have hsst : yaml.GetInt32 env item (lit "sst") 1 0xFF = Except.ok s.1 :=
      GetInteger_ok env 32 item (lit "sst") t 1 0xFF s.1 hs hv (by norm_num; omega) h1 h2
    obtain ⟨sst, sd⟩ := s
    cases sd with
    | none =>
      have hx := readSlice_no_sd env item sst hsst (hnone rfl)
      refine ⟨{ sst := sst, sd := none } :: xs, ?_, ?_⟩
      · simp only [readEach, hx, hxs]
      · simp only [List.map_cons, hmap, Option.map_none']
    | some d =>
      obtain ⟨t2, hg, hd2, l1, l2⟩ := hsome d rfl
      have hx := readSlice_sd_in_range env item sst t2 d hsst hg hd2 l1 l2
      refine ⟨{ sst := sst, sd := some d.toNat } :: xs, ?_, ?_⟩
      · simp only [readEach, hx, hxs]
      · simp only [List.map_cons, hmap, Option.map_some', Int.ofNat_eq_coe,
          Int.toNat_of_nonneg (show (0 : Int) ≤ d by omega)]

/-- C13, as stated, fails: the document with `mcc: 1` has every required key
and every value within its declared range (the text `1` stands for the integer
1, and the same document with `mcc: 001` is accepted with `mcc = 1`), yet
`ReadConfigYaml` refuses it, because the text of `mcc` is not 3 characters
long. -/
theorem ReadConfigYaml_in_range_refused :
    sampleEnv.asInteger (lit "1") = some 1
    ∧ ReadConfigYaml sampleEnv
        (configDocument "001" "93" "16" "32" "1" [amfEntry "127.0.0.5" "38412"]
          [sliceEntry "1" "66051", sliceEntryNoSd "2"])
      = Except.ok (sampleConfig 1 93 false (lit "UERANSIM-gnb-1-93-1")
          [{ address := lit "127.0.0.5", port := 38412 }]
          [{ sst := 1, sd := some 66051 }, { sst := 2, sd := none }])
    ∧ ReadConfigYaml sampleEnv
        (configDocument "1" "93" "16" "32" "1" [amfEntry "127.0.0.5" "38412"]
          [sliceEntry "1" "66051", sliceEntryNoSd "2"])
      = Except.error { name := lit "mcc", why := Violation.tooShort 3 } :=
  ⟨rfl, rfl, rfl⟩

/-- C13, amended: for every configuration document in which all required keys
are present, every value is within its declared range, the text of `mcc` is 3
characters long and the text of `mnc` is 2 or 3 characters long,
`ReadConfigYaml` succeeds and the returned configuration holds every field
with exactly the document's value: the numeric fields, the three addresses and
the flag are equal, and `amfConfigs` and `slices` hold the document's entries
in document order (so with the same length), the port and the `sd` unchanged
by their narrowing, and an absent `sd` absent. -/
theorem ReadConfigYaml_valid_document (env : ConfigEnv) (config : YamlNode)
    (mccText mncText nciText idText tacText portalIp ngapIp gtpIp ignText : CppString)
    (mcc mnc nci gnbIdLength tac : Int) (ignoreStreamIds : Bool)
    (amfItems sliceItems : List YamlNode)
    (amfs : List (CppString × Int)) (slices : List (Int × Option Int))
    (hmcc : config.get (lit "mcc") = some (YamlNode.Scalar mccText)
      ∧ env.asInteger mccText = some mcc ∧ 1 ≤ mcc ∧ mcc ≤ 999)
    (hmccLen : mccText.length = 3)
    (hmnc : config.get (lit "mnc") = some (YamlNode.Scalar mncText)
      ∧ env.asInteger mncText = some mnc ∧ 0 ≤ mnc ∧ mnc ≤ 999)
    (hmncLen : mncText.length = 2 ∨ mncText.length = 3)
    (hnci : config.get (lit "nci") = some (YamlNode.Scalar nciText)
      ∧ env.asInteger nciText = some nci ∧ 0 ≤ nci ∧ nci ≤ 0xFFFFFFFFF)
    (hid : config.get (lit "idLength") = some (YamlNode.Scalar idText)
      ∧ env.asInteger idText = some gnbIdLength ∧ 22 ≤ gnbIdLength ∧ gnbIdLength ≤ 32)
    (htac : config.get (lit "tac") = some (YamlNode.Scalar tacText)
      ∧ env.asInteger tacText = some tac ∧ 0 ≤ tac ∧ tac ≤ 0xFFFFFF)
    (hlink : config.get (lit "linkIp") = some (YamlNode.Scalar portalIp)
      ∧ env.GetIpVersion portalIp = 4)
    (hngap : config.get (lit "ngapIp") = some (YamlNode.Scalar ngapIp)
      ∧ env.GetIpVersion ngapIp = 4)
    (hgtp : config.get (lit "gtpIp") = some (YamlNode.Scalar gtpIp)
      ∧ env.GetIpVersion gtpIp = 4)
    (hign : config.get (lit "ignoreStreamIds") = some (YamlNode.Scalar ignText)
      ∧ env.asBool ignText = some ignoreStreamIds)
    (hamf : config.get (lit "amfConfigs") = some (YamlNode.Sequence amfItems))
    (hamfs : List.Forall₂ (fun (item : YamlNode) (a : CppString × Int) =>
      item.get (lit "address") = some (YamlNode.Scalar a.1) ∧ env.GetIpVersion a.1 = 4
      ∧ ∃ t, item.get (lit "port") = some (YamlNode.Scalar t) ∧ env.asInteger t = some a.2
          ∧ 1024 ≤ a.2 ∧ a.2 ≤ 65535) amfItems amfs)
    (hsl : config.get (lit "slices") = some (YamlNode.Sequence sliceItems))
    (hslices : List.Forall₂ (fun (item : YamlNode) (s : Int × Option Int) =>
      (∃ t, item.get (lit "sst") = some (YamlNode.Scalar t) ∧ env.asInteger t = some s.1
          ∧ 1 ≤ s.1 ∧ s.1 ≤ 255)
      ∧ (s.2 = none → item.get (lit "sd") = none)
      ∧ (∀ d, s.2 = some d → ∃ t, item.get (lit "sd") = some (YamlNode.Scalar t)
          ∧ env.asInteger t = some d ∧ 1 ≤ d ∧ d ≤ 0xFFFFFF)) sliceItems slices) :
    ∃ cfg, ReadConfigYaml env config = Except.ok cfg
      ∧ cfg.plmn.mcc = mcc ∧ cfg.plmn.mnc = mnc ∧ cfg.nci = nci
      ∧ cfg.gnbIdLength = gnbIdLength ∧ cfg.tac = tac
      ∧ cfg.portalIp = portalIp ∧ cfg.ngapIp = ngapIp ∧ cfg.gtpIp = gtpIp
      ∧ cfg.ignoreStreamIds = ignoreStreamIds
      ∧ cfg.amfConfigs.map (fun c => (c.address, (c.port : Int))) = amfs
      ∧ cfg.nssais.map (fun s => (s.sst, s.sd.map Int.ofNat)) = slices
      ∧ cfg.amfConfigs.length = amfItems.length ∧ cfg.nssais.length = sliceItems.length := by
  obtain ⟨amfConfigs, h13, hamap⟩ := readEach_amf_valid env amfItems amfs hamfs
  obtain ⟨nssais, h15, hsmap⟩ := readEach_slices_valid env sliceItems slices hslices
  have h1 : yaml.GetInt32 env config (lit "mcc") 1 999 = Except.ok mcc :=
    GetInteger_ok env 32 config (lit "mcc") mccText 1 999 mcc hmcc.1 hmcc.2.1
      (by norm_num; omega) hmcc.2.2.1 hmcc.2.2.2
  have h2 := GetString_ok config (lit "mcc") mccText 3 3 hmcc.1 (by omega) (by omega)
  have h3 : yaml.GetInt32 env config (lit "mnc") 0 999 = Except.ok mnc :=
    GetInteger_ok env 32 config (lit "mnc") mncText 0 999 mnc hmnc.1 hmnc.2.1
      (by norm_num; omega) hmnc.2.2.1 hmnc.2.2.2
  have h4 := GetString_ok config (lit "mnc") mncText 2 3 hmnc.1 (by omega) (by omega)
  have h5 : yaml.GetInt64 env config (lit "nci") 0 0xFFFFFFFFF = Except.ok nci :=
    GetInteger_ok env 64 config (lit "nci") nciText 0 0xFFFFFFFFF nci hnci.1 hnci.2.1
      (by norm_num; omega) hnci.2.2.1 hnci.2.2.2
  have h6 : yaml.GetInt32 env config (lit "idLength") 22 32 = Except.ok gnbIdLength :=
    GetInteger_ok env 32 config (lit "idLength") idText 22 32 gnbIdLength hid.1 hid.2.1
      (by norm_num; omega) hid.2.2.1 hid.2.2.2
  have h7 : yaml.GetInt32 env config (lit "tac") 0 0xFFFFFF = Except.ok tac :=
    GetInteger_ok env 32 config (lit "tac") tacText 0 0xFFFFFF tac htac.1 htac.2.1
      (by norm_num; omega) htac.2.2.1 htac.2.2.2
  have h8 := GetIp4_ok env config (lit "linkIp") portalIp hlink.1 hlink.2
  have h9 := GetIp4_ok env config (lit "ngapIp") ngapIp hngap.1 hngap.2
  have h10 := GetIp4_ok env config (lit "gtpIp") gtpIp hgtp.1 hgtp.2
  have h11 := GetBool_ok env config (lit "ignoreStreamIds") ignText ignoreStreamIds
    hign.1 hign.2
  have h12 := GetSequence_ok config (lit "amfConfigs") amfItems hamf
  have h14 := GetSequence_ok config (lit "slices") sliceItems hsl
  refine ⟨_, ReadConfigYaml_ok_of_steps env config mcc mnc nci gnbIdLength tac mccText mncText
    portalIp ngapIp gtpIp ignoreStreamIds amfItems sliceItems amfConfigs nssais
    h1 h2 h3 h4 h5 h6 h7 h8 h9 h10 h11 h12 h13 h14 h15,
    rfl, rfl, rfl, rfl, rfl, rfl, rfl, rfl, rfl, hamap, hsmap, ?_, ?_⟩
  · exact ((readEach_ok_iff _ _ _).mp h13).length_eq.symm
  · exact ((readEach_ok_iff _ _ _).mp h15).length_eq.symm

/-- Witness of C13 (amended): the sample document. -/
theorem ReadConfigYaml_valid_document_witness :
    ∃ cfg, ReadConfigYaml sampleEnv sampleDocument = Except.ok cfg
      ∧ cfg.plmn.mcc = 208 ∧ cfg.plmn.mnc = 93 ∧ cfg.nci = 16
      ∧ cfg.gnbIdLength = 32 ∧ cfg.tac = 1
      ∧ cfg.portalIp = lit "127.0.0.1" ∧ cfg.ngapIp = lit "127.0.0.1"
      ∧ cfg.gtpIp = lit "127.0.0.1" ∧ cfg.ignoreStreamIds = true
      ∧ cfg.amfConfigs.map (fun c => (c.address, (c.port : Int))) = [(lit "127.0.0.5", 38412)]
      ∧ cfg.nssais.map (fun s => (s.sst, s.sd.map Int.ofNat)) = [(1, some 66051), (2, none)]
      ∧ cfg.amfConfigs.length = [amfEntry "127.0.0.5" "38412"].length
      ∧ cfg.nssais.length = [sliceEntry "1" "66051", sliceEntryNoSd "2"].length :=
  ReadConfigYaml_valid_document sampleEnv sampleDocument
    (lit "208") (lit "93") (lit "16") (lit "32") (lit "1")
    (lit "127.0.0.1") (lit "127.0.0.1") (lit "127.0.0.1") (lit "true")
    208 93 16 32 1 true
    [amfEntry "127.0.0.5" "38412"] [sliceEntry "1" "66051", sliceEntryNoSd "2"]
    [(lit "127.0.0.5", 38412)] [(1, some 66051), (2, none)]
    ⟨rfl, rfl, by decide, by decide⟩ rfl
    ⟨rfl, rfl, by decide, by decide⟩ (Or.inl rfl)
    ⟨rfl, rfl, by decide, by decide⟩
    ⟨rfl, rfl, by decide, by decide⟩
    ⟨rfl, rfl, by decide, by decide⟩
    ⟨rfl, rfl⟩ ⟨rfl, rfl⟩ ⟨rfl, rfl⟩ ⟨rfl, rfl⟩
    rfl
    (List.Forall₂.cons ⟨rfl, rfl, lit "38412", rfl, rfl, by decide, by decide⟩
      List.Forall₂.nil)
    rfl
    (List.Forall₂.cons
      ⟨⟨lit "1", rfl, rfl, by decide, by decide⟩, fun h => absurd h (by decide),
        fun d hd => ⟨lit "66051", rfl, by rw [← Option.some.inj hd]; rfl,
          by rw [← Option.some.inj hd]; decide, by rw [← Option.some.inj hd]; decide⟩⟩
      (List.Forall₂.cons
        ⟨⟨lit "2", rfl, rfl, by decide, by decide⟩, fun _ => rfl,
          fun d hd => absurd hd (by simp)⟩
        List.Forall₂.nil))

/-! ## Refused documents: auxiliary facts -/

theorem except_ok_bind {ε α β : Type} (a : α) (f : α → Except ε β) :
    (Except.ok a >>= f) = f a := rfl

theorem except_error_bind {ε α β : Type} (e : ε) (f : α → Except ε β) :
    ((Except.error e : Except ε α) >>= f) = Except.error e := rfl

theorem ReadConfigYaml_fails_at_mcc (env : ConfigEnv) (config : YamlNode) (e : FieldError)
    (h1 : yaml.GetInt32 env config (lit "mcc") 1 999 = Except.error e) :
    ReadConfigYaml env config = Except.error e := by
  simp only [ReadConfigYaml, h1, except_error_bind]

theorem ReadConfigYaml_fails_at_mnc (env : ConfigEnv) (config : YamlNode) (e : FieldError)
    (mcc : Int) (mccText : CppString)
    (h1 : yaml.GetInt32 env config (lit "mcc") 1 999 = Except.ok mcc)
    (h2 : yaml.GetString config (lit "mcc") 3 3 = Except.ok mccText)
    (h3 : yaml.GetInt32 env config (lit "mnc") 0 999 = Except.error e) :
    ReadConfigYaml env config = Except.error e := by
  simp only [ReadConfigYaml, h1, h2, h3, except_ok_bind, except_error_bind]

theorem ReadConfigYaml_fails_at_nci (env : ConfigEnv) (config : YamlNode) (e : FieldError)
    (mcc mnc : Int) (mccText mncText : CppString)
    (h1 : yaml.GetInt32 env config (lit "mcc") 1 999 = Except.ok mcc)
    (h2 : yaml.GetString config (lit "mcc") 3 3 = Except.ok mccText)
    (h3 : yaml.GetInt32 env config (lit "mnc") 0 999 = Except.ok mnc)
    (h4 : yaml.GetString config (lit "mnc") 2 3 = Except.ok mncText)
    (h5 : yaml.GetInt64 env config (lit "nci") 0 0xFFFFFFFFF = Except.error e) :
    ReadConfigYaml env config = Except.error e := by
  simp only [ReadConfigYaml, h1, h2, h3, h4, h5, except_ok_bind, except_error_bind]

theorem ReadConfigYaml_fails_at_idLength (env : ConfigEnv) (config : YamlNode)
    (e : FieldError) (mcc mnc nci : Int) (mccText mncText : CppString)
    (h1 : yaml.GetInt32 env config (lit "mcc") 1 999 = Except.ok mcc)
    (h2 : yaml.GetString config (lit "mcc") 3 3 = Except.ok mccText)
    (h3 : yaml.GetInt32 env config (lit "mnc") 0 999 = Except.ok mnc)
    (h4 : yaml.GetString config (lit "mnc") 2 3 = Except.ok mncText)
    (h5 : yaml.GetInt64 env config (lit "nci") 0 0xFFFFFFFFF = Except.ok nci)
    (h6 : yaml.GetInt32 env config (lit "idLength") 22 32 = Except.error e) :
    ReadConfigYaml env config = Except.error e := by
  simp only [ReadConfigYaml, h1, h2, h3, h4, h5, h6, except_ok_bind, except_error_bind]

theorem ReadConfigYaml_fails_at_tac (env : ConfigEnv) (config : YamlNode)
    (e : FieldError) (mcc mnc nci gnbIdLength : Int) (mccText mncText : CppString)
    (h1 : yaml.GetInt32 env config (lit "mcc") 1 999 = Except.ok mcc)
    (h2 : yaml.GetString config (lit "mcc") 3 3 = Except.ok mccText)
    (h3 : yaml.GetInt32 env config (lit "mnc") 0 999 = Except.ok mnc)
    (h4 : yaml.GetString config (lit "mnc") 2 3 = Except.ok mncText)
    (h5 : yaml.GetInt64 env config (lit "nci") 0 0xFFFFFFFFF = Except.ok nci)
    (h6 : yaml.GetInt32 env config (lit "idLength") 22 32 = Except.ok gnbIdLength)
    (h7 : yaml.GetInt32 env config (lit "tac") 0 0xFFFFFF = Except.error e) :
    ReadConfigYaml env config = Except.error e := by
  simp only [ReadConfigYaml, h1, h2, h3, h4, h5, h6, h7, except_ok_bind, except_error_bind]

theorem ReadConfigYaml_fails_at_amfConfigs (env : ConfigEnv) (config : YamlNode)
    (e : FieldError) (mcc mnc nci gnbIdLength tac : Int)
    (mccText mncText portalIp ngapIp gtpIp : CppString) (ignoreStreamIds : Bool)
    (amfItems : List YamlNode)
    (h1 : yaml.GetInt32 env config (lit "mcc") 1 999 = Except.ok mcc)
    (h2 : yaml.GetString config (lit "mcc") 3 3 = Except.ok mccText)
    (h3 : yaml.GetInt32 env config (lit "mnc") 0 999 = Except.ok mnc)
    (h4 : yaml.GetString config (lit "mnc") 2 3 = Except.ok mncText)
    (h5 : yaml.GetInt64 env config (lit "nci") 0 0xFFFFFFFFF = Except.ok nci)
    (h6 : yaml.GetInt32 env config (lit "idLength") 22 32 = Except.ok gnbIdLength)
    (h7 : yaml.GetInt32 env config (lit "tac") 0 0xFFFFFF = Except.ok tac)
    (h8 : yaml.GetIp4 env config (lit "linkIp") = Except.ok portalIp)
    (h9 : yaml.GetIp4 env config (lit "ngapIp") = Except.ok ngapIp)
    (h10 : yaml.GetIp4 env config (lit "gtpIp") = Except.ok gtpIp)
    (h11 : yaml.GetBool env config (lit "ignoreStreamIds") = Except.ok ignoreStreamIds)
    (h12 : yaml.GetSequence config (lit "amfConfigs") = Except.ok amfItems)
    (h13 : readEach (readAmfConfig env) amfItems = Except.error e) :
    ReadConfigYaml env config = Except.error e := by
  simp only [ReadConfigYaml, h1, h2, h3, h4, h5, h6, h7, h8, h9, h10, h11, h12, h13,
    except_ok_bind, except_error_bind]

theorem ReadConfigYaml_fails_at_slices (env : ConfigEnv) (config : YamlNode)
    (e : FieldError) (mcc mnc nci gnbIdLength tac : Int)
    (mccText mncText portalIp ngapIp gtpIp : CppString) (ignoreStreamIds : Bool)
    (amfItems sliceItems : List YamlNode) (amfConfigs : List GnbAmfConfig)
    (h1 : yaml.GetInt32 env config (lit "mcc") 1 999 = Except.ok mcc)
    (h2 : yaml.GetString config (lit "mcc") 3 3 = Except.ok mccText)
    (h3 : yaml.GetInt32 env config (lit "mnc") 0 999 = Except.ok mnc)
    (h4 : yaml.GetString config (lit "mnc") 2 3 = Except.ok mncText)
    (h5 : yaml.GetInt64 env config (lit "nci") 0 0xFFFFFFFFF = Except.ok nci)
    (h6 : yaml.GetInt32 env config (lit "idLength") 22 32 = Except.ok gnbIdLength)
    (h7 : yaml.GetInt32 env config (lit "tac") 0 0xFFFFFF = Except.ok tac)
    (h8 : yaml.GetIp4 env config (lit "linkIp") = Except.ok portalIp)
    (h9 : yaml.GetIp4 env config (lit "ngapIp") = Except.ok ngapIp)
    (h10 : yaml.GetIp4 env config (lit "gtpIp") = Except.ok gtpIp)
    (h11 : yaml.GetBool env config (lit "ignoreStreamIds") = Except.ok ignoreStreamIds)
    (h12 : yaml.GetSequence config (lit "amfConfigs") = Except.ok amfItems)
    (h13 : readEach (readAmfConfig env) amfItems = Except.ok amfConfigs)
    (h14 : yaml.GetSequence config (lit "slices") = Except.ok sliceItems)
    (h15 : readEach (readSlice env) sliceItems = Except.error e) :
    ReadConfigYaml env config = Except.error e := by
  simp only [ReadConfigYaml, h1, h2, h3, h4, h5, h6, h7, h8, h9, h10, h11, h12, h13, h14, h15,
    except_ok_bind, except_error_bind]

/-- The loop accepted every item of a list it succeeded on. -/
theorem readEach_ok_mem {α : Type} (body : YamlNode → Except FieldError α)
    (items : List YamlNode) (xs : List α) (item : YamlNode)
    (h : readEach body items = Except.ok xs) (hm : item ∈ items) :
    ∃ x, body item = Except.ok x := by
  cases hb : body item with
  | ok x => exact ⟨x, rfl⟩
  | error e =>
    obtain ⟨e2, h2⟩ := readEach_error_of_mem body items item e hm hb
    rw [h2] at h
    cases h

/-- A document that differs from another one only under `amfConfigs` or only
under `slices` goes through the same eleven scalar steps. -/
theorem scalar_steps_congr (env : ConfigEnv) (config config2 : YamlNode) (skip : CppString)
    (hskip : skip = lit "amfConfigs" ∨ skip = lit "slices")
    (hagree : ∀ other, other ≠ skip → config2.get other = config.get other) :
    yaml.GetInt32 env config2 (lit "mcc") 1 999 = yaml.GetInt32 env config (lit "mcc") 1 999
    ∧ yaml.GetString config2 (lit "mcc") 3 3 = yaml.GetString config (lit "mcc") 3 3
    ∧ yaml.GetInt32 env config2 (lit "mnc") 0 999 = yaml.GetInt32 env config (lit "mnc") 0 999
    ∧ yaml.GetString config2 (lit "mnc") 2 3 = yaml.GetString config (lit "mnc") 2 3
    ∧ yaml.GetInt64 env config2 (lit "nci") 0 0xFFFFFFFFF
        = yaml.GetInt64 env config (lit "nci") 0 0xFFFFFFFFF
    ∧ yaml.GetInt32 env config2 (lit "idLength") 22 32
        = yaml.GetInt32 env config (lit "idLength") 22 32
    ∧ yaml.GetInt32 env config2 (lit "tac") 0 0xFFFFFF
        = yaml.GetInt32 env config (lit "tac") 0 0xFFFFFF
    ∧ yaml.GetIp4 env config2 (lit "linkIp") = yaml.GetIp4 env config (lit "linkIp")
    ∧ yaml.GetIp4 env config2 (lit "ngapIp") = yaml.GetIp4 env config (lit "ngapIp")
    ∧ yaml.GetIp4 env config2 (lit "gtpIp") = yaml.GetIp4 env config (lit "gtpIp")
    ∧ yaml.GetBool env config2 (lit "ignoreStreamIds")
        = yaml.GetBool env config (lit "ignoreStreamIds") := by
  have ne : ∀ k : CppString, k ≠ lit "amfConfigs" → k ≠ lit "slices" → k ≠ skip := by
    intro k h1 h2 hk
    rcases hskip with h | h
    · exact h1 (hk.trans h)
    · exact h2 (hk.trans h)
  exact ⟨GetInteger_congr env 32 config config2 _ _ _ (hagree _ (ne _ (by decide) (by decide))),
    GetString_congr config config2 _ _ _ (hagree _ (ne _ (by decide) (by decide))),
    GetInteger_congr env 32 config config2 _ _ _ (hagree _ (ne _ (by decide) (by decide))),
    GetString_congr config config2 _ _ _ (hagree _ (ne _ (by decide) (by decide))),
    GetInteger_congr env 64 config config2 _ _ _ (hagree _ (ne _ (by decide) (by decide))),
    GetInteger_congr env 32 config config2 _ _ _ (hagree _ (ne _ (by decide) (by decide))),
    GetInteger_congr env 32 config config2 _ _ _ (hagree _ (ne _ (by decide) (by decide))),
    GetIp4_congr env config config2 _ (hagree _ (ne _ (by decide) (by decide))),
    GetIp4_congr env config config2 _ (hagree _ (ne _ (by decide) (by decide))),
    GetIp4_congr env config config2 _ (hagree _ (ne _ (by decide) (by decide))),
    GetBool_congr env config config2 _ (hagree _ (ne _ (by decide) (by decide)))⟩

/-- C12: let `config` be a document `ReadConfigYaml` accepts, and `config2` a
document that agrees with it except for one field, whose value is an integer
outside the declared range: `mcc` outside 1..999, `mnc` outside 0..999, `nci`
outside 0..0xFFFFFFFFF, `idLength` outside 22..32, `tac` outside 0..0xFFFFFF,
the `port` of one `amfConfigs` entry outside 1024..65535, or the `sst` of one
`slices` entry outside 1..255.  Then `ReadConfigYaml` fails on `config2` (it
returns no configuration) with an error that names the key of that field. -/
theorem ReadConfigYaml_out_of_range (env : ConfigEnv) (config : YamlNode) (cfg : GnbConfig)
    (hvalid : ReadConfigYaml env config = Except.ok cfg) :
    (∀ (config2 : YamlNode) (key text : CppString) (lo hi v : Int),
      (key, lo, hi) ∈ [(lit "mcc", (1 : Int), (999 : Int)), (lit "mnc", 0, 999),
        (lit "nci", 0, 0xFFFFFFFFF), (lit "idLength", 22, 32), (lit "tac", 0, 0xFFFFFF)] →
      (∀ other, other ≠ key → config2.get other = config.get other) →
      config2.get key = some (YamlNode.Scalar text) → env.asInteger text = some v →
      (v < lo ∨ hi < v) →
      ∃ why, ReadConfigYaml env config2 = Except.error { name := key, why := why })
    ∧ (∀ (config2 : YamlNode) (pre post : List YamlNode) (entry entry2 : YamlNode)
        (text : CppString) (v : Int),
      config.get (lit "amfConfigs") = some (YamlNode.Sequence (pre ++ entry :: post)) →
      config2.get (lit "amfConfigs") = some (YamlNode.Sequence (pre ++ entry2 :: post)) →
      (∀ other, other ≠ lit "amfConfigs" → config2.get other = config.get other) →
      (∀ other, other ≠ lit "port" → entry2.get other = entry.get other) →
      entry2.get (lit "port") = some (YamlNode.Scalar text) → env.asInteger text = some v →
      (v < 1024 ∨ 65535 < v) →
      ∃ why, ReadConfigYaml env config2 = Except.error { name := lit "port", why := why })
    ∧ (∀ (config2 : YamlNode) (pre post : List YamlNode) (entry entry2 : YamlNode)
        (text : CppString) (v : Int),
      config.get (lit "slices") = some (YamlNode.Sequence (pre ++ entry :: post)) →
      config2.get (lit "slices") = some (YamlNode.Sequence (pre ++ entry2 :: post)) →
      (∀ other, other ≠ lit "slices" → config2.get other = config.get other) →
      (∀ other, other ≠ lit "sst" → entry2.get other = entry.get other) →
      entry2.get (lit "sst") = some (YamlNode.Scalar text) → env.asInteger text = some v →
      (v < 1 ∨ 255 < v) →
      ∃ why, ReadConfigYaml env config2 = Except.error { name := lit "sst", why := why }) := by
  obtain ⟨mcc, mccText, mnc, mncText, nci, idl, tac, p, n, g, ign, amfItems, amfs, sliceItems,
    slices, h1, h2, h3, h4, h5, h6, h7, h8, h9, h10, h11, h12, h13, h14, h15, _⟩ :=
    ReadConfigYaml_ok_inv env config cfg hvalid
  refine ⟨?_, ?_, ?_⟩
  · intro config2 key text lo hi v hkey hagree hget hv hr
    simp only [List.mem_cons, Prod.mk.injEq, List.mem_singleton, List.not_mem_nil,
      or_false] at hkey
    rcases hkey with ⟨rfl, rfl, rfl⟩ | ⟨rfl, rfl, rfl⟩ | ⟨rfl, rfl, rfl⟩ | ⟨rfl, rfl, rfl⟩
      | ⟨rfl, rfl, rfl⟩
    · obtain ⟨why, hf⟩ := GetInteger_out_of_range env 32 config2 _ text _ _ v hget hv hr
      exact ⟨why, ReadConfigYaml_fails_at_mcc env config2 _ hf⟩
    · obtain ⟨why, hf⟩ := GetInteger_out_of_range env 32 config2 _ text _ _ v hget hv hr
      exact ⟨why, ReadConfigYaml_fails_at_mnc env config2 _ mcc mccText
        ((GetInteger_congr env 32 config config2 _ _ _ (hagree _ (by decide))).trans h1)
        ((GetString_congr config config2 _ _ _ (hagree _ (by decide))).trans h2) hf⟩
    · obtain ⟨why, hf⟩ := GetInteger_out_of_range env 64 config2 _ text _ _ v hget hv hr
      exact ⟨why, ReadConfigYaml_fails_at_nci env config2 _ mcc mnc mccText mncText
        ((GetInteger_congr env 32 config config2 _ _ _ (hagree _ (by decide))).trans h1)
        ((GetString_congr config config2 _ _ _ (hagree _ (by decide))).trans h2)
        ((GetInteger_congr env 32 config config2 _ _ _ (hagree _ (by decide))).trans h3)
        ((GetString_congr config config2 _ _ _ (hagree _ (by decide))).trans h4) hf⟩
    · obtain ⟨why, hf⟩ := GetInteger_out_of_range env 32 config2 _ text _ _ v hget hv hr
      exact ⟨why, ReadConfigYaml_fails_at_idLength env config2 _ mcc mnc nci mccText mncText
        ((GetInteger_congr env 32 config config2 _ _ _ (hagree _ (by decide))).trans h1)
        ((GetString_congr config config2 _ _ _ (hagree _ (by decide))).trans h2)
        ((GetInteger_congr env 32 config config2 _ _ _ (hagree _ (by decide))).trans h3)
        ((GetString_congr config config2 _ _ _ (hagree _ (by decide))).trans h4)
        ((GetInteger_congr env 64 config config2 _ _ _ (hagree _ (by decide))).trans h5) hf⟩
    · obtain ⟨why, hf⟩ := GetInteger_out_of_range env 32 config2 _ text _ _ v hget hv hr
      exact ⟨why, ReadConfigYaml_fails_at_tac env config2 _ mcc mnc nci idl mccText mncText
        ((GetInteger_congr env 32 config config2 _ _ _ (hagree _ (by decide))).trans h1)
        ((GetString_congr config config2 _ _ _ (hagree _ (by decide))).trans h2)
        ((GetInteger_congr env 32 config config2 _ _ _ (hagree _ (by decide))).trans h3)
        ((GetString_congr config config2 _ _ _ (hagree _ (by decide))).trans h4)
        ((GetInteger_congr env 64 config config2 _ _ _ (hagree _ (by decide))).trans h5)
        ((GetInteger_congr env 32 config config2 _ _ _ (hagree _ (by decide))).trans h6) hf⟩
  · intro config2 pre post entry entry2 text v hseq hseq2 hagree hentry hget hv hr
    obtain ⟨e1, e2, e3, e4, e5, e6, e7, e8, e9, e10, e11⟩ :=
      scalar_steps_congr env config config2 _ (Or.inl rfl) hagree
    have hitems := GetSequence_ok_inv _ _ _ h12
    rw [hseq] at hitems
    cases hitems
    obtain ⟨xs, hpre⟩ := readEach_append_ok_inv (readAmfConfig env) pre (entry :: post) amfs h13
    obtain ⟨c, hc⟩ := readEach_ok_mem (readAmfConfig env) _ amfs entry h13 (by simp)
    simp only [readAmfConfig, except_bind_eq_ok] at hc
    obtain ⟨a, ha, _⟩ := hc
    have ha2 := (GetIp4_congr env entry entry2 _ (hentry _ (by decide))).trans ha
    obtain ⟨why, hf⟩ := GetInteger_out_of_range env 32 entry2 _ text 1024 65535 v hget hv hr
    have hf2 : yaml.GetInt32 env entry2 (lit "port") 1024 65535
        = Except.error { name := lit "port", why := why } := hf
    have hbody : readAmfConfig env entry2 = Except.error { name := lit "port", why := why } := by
      simp only [readAmfConfig, ha2, hf2, except_ok_bind, except_error_bind]
    exact ⟨why, ReadConfigYaml_fails_at_amfConfigs env config2 _ mcc mnc nci idl tac mccText
      mncText p n g ign (pre ++ entry2 :: post) (e1.trans h1) (e2.trans h2) (e3.trans h3)
      (e4.trans h4) (e5.trans h5) (e6.trans h6) (e7.trans h7) (e8.trans h8) (e9.trans h9)
      (e10.trans h10) (e11.trans h11) (GetSequence_ok _ _ _ hseq2)
      (readEach_append_error _ pre xs entry2 post _ hpre hbody)⟩
  · intro config2 pre post entry entry2 text v hseq hseq2 hagree _ hget hv hr
    obtain ⟨e1, e2, e3, e4, e5, e6, e7, e8, e9, e10, e11⟩ :=
      scalar_steps_congr env config config2 _ (Or.inr rfl) hagree
    have e12 := GetSequence_congr config config2 (lit "amfConfigs") (hagree _ (by decide))
    have hitems := GetSequence_ok_inv _ _ _ h14
    rw [hseq] at hitems
    cases hitems
    obtain ⟨xs, hpre⟩ := readEach_append_ok_inv (readSlice env) pre (entry :: post) slices h15
    obtain ⟨why, hf⟩ := GetInteger_out_of_range env 32 entry2 _ text 1 255 v hget hv hr
    have hf2 : yaml.GetInt32 env entry2 (lit "sst") 1 0xFF
        = Except.error { name := lit "sst", why := why } := hf
    have hbody : readSlice env entry2 = Except.error { name := lit "sst", why := why } := by
      simp only [readSlice, hf2, except_error_bind]
    exact ⟨why, ReadConfigYaml_fails_at_slices env config2 _ mcc mnc nci idl tac mccText
      mncText p n g ign amfItems (pre ++ entry2 :: post) amfs (e1.trans h1) (e2.trans h2)
      (e3.trans h3) (e4.trans h4) (e5.trans h5) (e6.trans h6) (e7.trans h7) (e8.trans h8)
      (e9.trans h9) (e10.trans h10) (e11.trans h11) (e12.trans h12) h13
      (GetSequence_ok _ _ _ hseq2) (readEach_append_error _ pre xs entry2 post _ hpre hbody)⟩

/-- Witness of C12: the sample document with `mcc: 1000`, with `port: 80`, and
with `sst: 256`. -/
theorem ReadConfigYaml_out_of_range_witness :
    (∃ why, ReadConfigYaml sampleEnv
        (configDocument "1000" "93" "16" "32" "1" [amfEntry "127.0.0.5" "38412"]
          [sliceEntry "1" "66051", sliceEntryNoSd "2"])
      = Except.error { name := lit "mcc", why := why })
    ∧ (∃ why, ReadConfigYaml sampleEnv
        (configDocument "208" "93" "16" "32" "1" [amfEntry "127.0.0.5" "80"]
          [sliceEntry "1" "66051", sliceEntryNoSd "2"])
      = Except.error { name := lit "port", why := why })
    ∧ (∃ why, ReadConfigYaml sampleEnv
        (configDocument "208" "93" "16" "32" "1" [amfEntry "127.0.0.5" "38412"]
          [sliceEntry "256" "66051", sliceEntryNoSd "2"])
      = Except.error { name := lit "sst", why := why }) :=
  ⟨(ReadConfigYaml_out_of_range sampleEnv sampleDocument
      (sampleConfig 208 93 false (lit "UERANSIM-gnb-208-93-1")
        [{ address := lit "127.0.0.5", port := 38412 }]
        [{ sst := 1, sd := some 66051 }, { sst := 2, sd := none }]) rfl).1
      (configDocument "1000" "93" "16" "32" "1" [amfEntry "127.0.0.5" "38412"]
        [sliceEntry "1" "66051", sliceEntryNoSd "2"])
      (lit "mcc") (lit "1000") 1 999 1000 (List.mem_cons_self _ _)
      (fun other h => by
        have hb : (other == lit "mcc") = false := by simpa using h
        simp only [configDocument, sampleDocument, YamlNode.get, List.lookup, hb])
      rfl rfl (Or.inr (by decide)),
   (ReadConfigYaml_out_of_range sampleEnv sampleDocument
      (sampleConfig 208 93 false (lit "UERANSIM-gnb-208-93-1")
        [{ address := lit "127.0.0.5", port := 38412 }]
        [{ sst := 1, sd := some 66051 }, { sst := 2, sd := none }]) rfl).2.1
      (configDocument "208" "93" "16" "32" "1" [amfEntry "127.0.0.5" "80"]
        [sliceEntry "1" "66051", sliceEntryNoSd "2"])
      [] [] (amfEntry "127.0.0.5" "38412") (amfEntry "127.0.0.5" "80") (lit "80") 80
      rfl rfl
      (fun other h => by
        have hb : (other == lit "amfConfigs") = false := by simpa using h
        simp only [configDocument, sampleDocument, YamlNode.get, List.lookup, hb])
      (fun other h => by
        have hb : (other == lit "port") = false := by simpa using h
        simp only [amfEntry, YamlNode.get, List.lookup, hb])
      rfl rfl (Or.inl (by decide)),
   (ReadConfigYaml_out_of_range sampleEnv sampleDocument
      (sampleConfig 208 93 false (lit "UERANSIM-gnb-208-93-1")
        [{ address := lit "127.0.0.5", port := 38412 }]
        [{ sst := 1, sd := some 66051 }, { sst := 2, sd := none }]) rfl).2.2
      (configDocument "208" "93" "16" "32" "1" [amfEntry "127.0.0.5" "38412"]
        [sliceEntry "256" "66051", sliceEntryNoSd "2"])
      [] [sliceEntryNoSd "2"] (sliceEntry "1" "66051") (sliceEntry "256" "66051")
      (lit "256") 256 rfl rfl
      (fun other h => by
        have hb : (other == lit "slices") = false := by simpa using h
        simp only [configDocument, sampleDocument, YamlNode.get, List.lookup, hb])
      (fun other h => by
        have hb : (other == lit "sst") = false := by simpa using h
        simp only [sliceEntry, YamlNode.get, List.lookup, hb])
      rfl rfl (Or.inr (by decide))⟩

end Gnb
